import Mathlib

/-!
# AXI PWM generator driver (`drivers/axi_core/axi_pwmgen/axi_pwm.c`)

A shallow embedding of the driver.  `uint32_t` values are natural numbers
reduced modulo `2 ^ 32` wherever the C arithmetic can wrap, `int32_t` return
codes are integers, and the register bus (`axi_io_read` / `axi_io_write`) is an
explicit state machine threaded through every driver function together with a
log of the register writes issued and a small heap model for `calloc`/`free`.
-/

namespace AxiPwm

/-! ## Constants -/

/-- Modulus of `uint32_t` arithmetic. -/
def U32 : Nat := 2 ^ 32

/-- Modelled from the spec: `SUCCESS` of `error.h` (not under `src/`), the
binary success code every register operation returns. -/
def SUCCESS : Int := 0

/-- Modelled from the spec: `FAILURE` of `error.h` (not under `src/`). -/
def FAILURE : Int := -1

/-- Modelled from the spec: `BIT(x)` of `util.h` (not under `src/`), the mask
of bit `x` (bit0 = reset, bit1 = load-config in the register map). -/
def BIT (x : Nat) : Nat := 2 ^ x

def AXI_PWMGEN_REG_CORE_VERSION : Nat := 0x00
def AXI_PWMGEN_REG_ID : Nat := 0x04
def AXI_PWMGEN_REG_SCRATCHPAD : Nat := 0x08
def AXI_PWMGEN_REG_CORE_MAGIC : Nat := 0x0C
def AXI_PWMGEN_REG_CONFIG : Nat := 0x10
def AXI_PWMGEN_REG_NPWM : Nat := 0x14
def AXI_PWMGEN_CH_PERIOD_BASE : Nat := 0x40
def AXI_PWMGEN_CH_DUTY_BASE : Nat := 0x44
def AXI_PWMGEN_CH_PHASE_BASE : Nat := 0x48

/-- `AXI_PWMGEN_CHX_PERIOD(ch)`: `0x40 + 12 * ch` in `uint32_t` arithmetic. -/
def AXI_PWMGEN_CHX_PERIOD (ch : Nat) : Nat :=
  (AXI_PWMGEN_CH_PERIOD_BASE + (12 * ch) % U32) % U32

/-- `AXI_PWMGEN_CHX_DUTY(ch)`: `0x44 + 12 * ch` in `uint32_t` arithmetic. -/
def AXI_PWMGEN_CHX_DUTY (ch : Nat) : Nat :=
  (AXI_PWMGEN_CH_DUTY_BASE + (12 * ch) % U32) % U32

/-- `AXI_PWMGEN_CHX_PHASE(ch)`: `0x48 + 12 * ch` in `uint32_t` arithmetic. -/
def AXI_PWMGEN_CHX_PHASE (ch : Nat) : Nat :=
  (AXI_PWMGEN_CH_PHASE_BASE + (12 * ch) % U32) % U32

def AXI_PWMGEN_TEST_DATA : Nat := 0x5A0F0081
def AXI_PWMGEN_LOAD_CONIG : Nat := BIT 1
def AXI_PWMGEN_RESET : Nat := BIT 0
def AXI_PWMGEN_CHANNEL_DISABLE : Nat := 0
def AXI_PWMGEN_MAX_CHANNELS : Nat := 4
def NSEC_PER_USEC : Nat := 1000
def USEC_PER_SEC : Nat := 1000000

/-- Modelled from the spec: `DIV_ROUND_UP(x, y)` of `util.h` (not under
`src/`), the round-up division `ceil(x / y)` written `((x) + (y) - 1) / (y)`.
The sum is taken in 32-bit unsigned arithmetic, the type of `tmp + 1000000L`
where `long` is 32 bits wide; where `long` is 64 bits wide the sum cannot
wrap, and the two agree whenever `x + y - 1 < 2 ^ 32`. -/
def DIV_ROUND_UP (x y : Nat) : Nat := ((x + y - 1) % U32) / y

/-- Bitwise complement `~m` of a `uint32_t`. -/
def not32 (m : Nat) : Nat := (U32 - 1) ^^^ (m % U32)

/-! ## Register bus, write log and heap -/

/-- Modelled from the spec: the external RegisterBus collaborator behind
`axi_io_read` / `axi_io_write` of `axi_io.h` (not under `src/`):
`read(base, offset)` gives a status, the data and the next bus state,
`write(base, offset, value)` a status and the next bus state. -/
structure RegisterBus (σ : Type) where
  read : σ → Nat → Nat → Int × Nat × σ
  write : σ → Nat → Nat → Nat → Int × σ

/-- One call of `axi_io_write`. -/
structure IoWrite where
  base : Nat
  offset : Nat
  value : Nat
  deriving DecidableEq, Repr

/-- Everything outside the descriptors that the driver acts on: the bus, the
register writes issued so far (oldest first), and the heap, as the number of
live blocks and the number of blocks `calloc` can still hand out. -/
structure World (σ : Type) where
  bus : σ
  writes : List IoWrite
  heap_live : Nat
  heap_avail : Nat

/-- `axi_io_read(base, offset, &data)`; the data is a `uint32_t`. -/
def axi_io_read {σ : Type} (B : RegisterBus σ) (w : World σ) (base offset : Nat) :
    Int × Nat × World σ :=
  let r := B.read w.bus base offset
  (r.1, r.2.1 % U32, { w with bus := r.2.2 })

/-- `axi_io_write(base, offset, value)`; every call is logged. -/
def axi_io_write {σ : Type} (B : RegisterBus σ) (w : World σ) (base offset value : Nat) :
    Int × World σ :=
  let r := B.write w.bus base offset value
  (r.1, { w with bus := r.2, writes := w.writes ++ [⟨base, offset, value⟩] })

/-- `calloc(1, size)`: fails (returns `NULL`) when the heap is exhausted. -/
def calloc {σ : Type} (w : World σ) : Bool × World σ :=
  match w.heap_avail with
  | 0 => (false, w)
  | n + 1 => (true, { w with heap_live := w.heap_live + 1, heap_avail := n })

/-- `free(p)` of a live block. -/
def free {σ : Type} (w : World σ) : World σ :=
  { w with heap_live := w.heap_live - 1, heap_avail := w.heap_avail + 1 }

/-! ## Descriptors -/

/-- Modelled from the spec: `struct axi_pwm_desc` of `axi_pwm_extra.h` (not
under `src/`), with the fields the driver accesses. -/
structure axi_pwm_desc where
  base_addr : Nat
  ref_clock_Hz : Nat
  channel : Nat
  ch_period : Nat
  deriving DecidableEq, Repr

/-- Modelled from the spec: `struct pwm_desc` of `pwm.h` (not under `src/`),
with the fields the driver accesses; `extra` is the owned `axi_pwm_desc`. -/
structure pwm_desc where
  period_ns : Nat
  duty_cycle_ns : Nat
  phase_ns : Nat
  polarity : Nat
  enabled : Bool
  extra : axi_pwm_desc
  deriving DecidableEq, Repr

/-- Modelled from the spec: `struct axi_pwm_init_param` of `axi_pwm_extra.h`
(not under `src/`). -/
structure axi_pwm_init_param where
  base_addr : Nat
  ref_clock_Hz : Nat
  channel : Nat
  deriving DecidableEq, Repr

/-- Modelled from the spec: `struct pwm_init_param` of `pwm.h` (not under
`src/`): initial period, duty cycle, phase and polarity, and the AXI
specific parameters in `extra`. -/
structure pwm_init_param where
  period_ns : Nat
  duty_cycle_ns : Nat
  phase_ns : Nat
  polarity : Nat
  extra : axi_pwm_init_param
  deriving DecidableEq, Repr

/-! ## Driver functions -/

/-- `axi_pwmgen_write_mask(base, offset, mask, data)`. -/
def axi_pwmgen_write_mask {σ : Type} (B : RegisterBus σ) (w : World σ)
    (base offset mask data : Nat) : Int × World σ :=
  let r := axi_io_read B w base offset
  let ret := r.1
  let temp := r.2.1
  let w := r.2.2
  if ret ≠ 0 then (ret, w)
  else axi_io_write B w base offset ((temp &&& not32 mask) ||| (data &&& mask))

/-- `pwm_enable(desc)`. -/
def pwm_enable {σ : Type} (B : RegisterBus σ) (w : World σ) (desc : pwm_desc) :
    Int × pwm_desc × World σ :=
  let axi_desc := desc.extra
  let r := axi_io_write B w axi_desc.base_addr
    (AXI_PWMGEN_CHX_PERIOD axi_desc.channel) axi_desc.ch_period
  if r.1 ≠ SUCCESS then (r.1, desc, r.2)
  else
    let r2 := axi_io_write B r.2 axi_desc.base_addr AXI_PWMGEN_REG_CONFIG
      AXI_PWMGEN_LOAD_CONIG
    (r2.1, desc, r2.2)

/-- `pwm_disable(desc)`. -/
def pwm_disable {σ : Type} (B : RegisterBus σ) (w : World σ) (desc : pwm_desc) :
    Int × pwm_desc × World σ :=
  let axi_desc := desc.extra
  let r := axi_io_write B w axi_desc.base_addr
    (AXI_PWMGEN_CHX_PERIOD axi_desc.channel) AXI_PWMGEN_CHANNEL_DISABLE
  if r.1 ≠ SUCCESS then (r.1, desc, r.2)
  else
    let r2 := axi_io_write B r.2 axi_desc.base_addr AXI_PWMGEN_REG_CONFIG
      AXI_PWMGEN_LOAD_CONIG
    (r2.1, desc, r2.2)

/-- The nanoseconds-to-ticks conversion that `pwm_set_period`,
`pwm_set_duty_cycle` and `pwm_set_phase` each spell out:
`tmp = (ref_clock_Hz / NSEC_PER_USEC) * ns; cnt = DIV_ROUND_UP(tmp, USEC_PER_SEC)`
with `tmp` a `uint32_t`. -/
def ns_to_cnt (ref_clock_Hz ns : Nat) : Nat :=
  let tmp := ((ref_clock_Hz / NSEC_PER_USEC) * ns) % U32
  DIV_ROUND_UP tmp USEC_PER_SEC

/-- `pwm_set_period(desc, period_ns)`. -/
def pwm_set_period {σ : Type} (B : RegisterBus σ) (w : World σ) (desc : pwm_desc)
    (period_ns : Nat) : Int × pwm_desc × World σ :=
  let axi_desc := desc.extra
  let tmp := ((axi_desc.ref_clock_Hz / NSEC_PER_USEC) * period_ns) % U32
  let period_cnt := DIV_ROUND_UP tmp USEC_PER_SEC
  let desc := { desc with extra := { axi_desc with ch_period := period_cnt } }
  let r := axi_io_write B w axi_desc.base_addr
    (AXI_PWMGEN_CHX_PERIOD axi_desc.channel) (if desc.enabled then period_cnt else 0)
  if r.1 ≠ SUCCESS then (r.1, desc, r.2)
  else (SUCCESS, { desc with period_ns := period_ns }, r.2)

/-- `pwm_get_period(desc, &period_ns)`: the status and the value stored. -/
def pwm_get_period (desc : pwm_desc) : Int × Nat := (SUCCESS, desc.period_ns)

/-- `pwm_set_duty_cycle(desc, duty_cycle_ns)`. -/
def pwm_set_duty_cycle {σ : Type} (B : RegisterBus σ) (w : World σ) (desc : pwm_desc)
    (duty_cycle_ns : Nat) : Int × pwm_desc × World σ :=
  let axi_desc := desc.extra
  let duty_cycle_ns := if duty_cycle_ns > desc.period_ns then desc.period_ns else duty_cycle_ns
  let tmp := ((axi_desc.ref_clock_Hz / NSEC_PER_USEC) * duty_cycle_ns) % U32
  let duty_cnt := DIV_ROUND_UP tmp USEC_PER_SEC
  let r := axi_io_write B w axi_desc.base_addr
    (AXI_PWMGEN_CHX_DUTY axi_desc.channel) duty_cnt
  if r.1 ≠ SUCCESS then (r.1, desc, r.2)
  else (SUCCESS, { desc with duty_cycle_ns := duty_cycle_ns }, r.2)

/-- `pwm_get_duty_cycle(desc, &duty_cycle_ns)`. -/
def pwm_get_duty_cycle (desc : pwm_desc) : Int × Nat := (SUCCESS, desc.duty_cycle_ns)

/-- `pwm_set_phase(desc, phase_ns)`. -/
def pwm_set_phase {σ : Type} (B : RegisterBus σ) (w : World σ) (desc : pwm_desc)
    (phase_ns : Nat) : Int × pwm_desc × World σ :=
  let axi_desc := desc.extra
  let tmp := ((axi_desc.ref_clock_Hz / NSEC_PER_USEC) * phase_ns) % U32
  let phase_cnt := DIV_ROUND_UP tmp USEC_PER_SEC
  let r := axi_io_write B w axi_desc.base_addr
    (AXI_PWMGEN_CHX_PHASE axi_desc.channel) phase_cnt
  if r.1 ≠ SUCCESS then (r.1, desc, r.2)
  else (SUCCESS, { desc with phase_ns := phase_ns }, r.2)

/-- `pwm_get_phase(desc, &phase_ns)`. -/
def pwm_get_phase (desc : pwm_desc) : Int × Nat := (SUCCESS, desc.phase_ns)

/-- `pwm_init(&desc, param)`.  `desc` is the content of the output parameter
before the call; the result carries its content after the call.  The two
descriptors come from `calloc`, so every field not assigned is zero. -/
def pwm_init {σ : Type} (B : RegisterBus σ) (w : World σ) (desc : Option pwm_desc)
    (param : Option pwm_init_param) : Int × Option pwm_desc × World σ :=
  match param with
  | none => (FAILURE, desc, w)
  | some param =>
    let axi_init := param.extra
    let a1 := calloc w
    if a1.1 = false then (FAILURE, desc, a1.2)
    else
    let a2 := calloc a1.2
    -- error_desc: free(pwm_desc)
    if a2.1 = false then (FAILURE, desc, free a2.2)
    else
    let axi_desc : axi_pwm_desc :=
      { base_addr := axi_init.base_addr, ref_clock_Hz := axi_init.ref_clock_Hz,
        channel := axi_init.channel, ch_period := 0 }
    let pwm_desc : pwm_desc :=
      { period_ns := param.period_ns, duty_cycle_ns := param.duty_cycle_ns, phase_ns := 0,
        polarity := param.polarity, enabled := false, extra := axi_desc }
    -- error_xdesc: free(axi_desc); free(pwm_desc)
    let error_xdesc := fun (w : World σ) => (FAILURE, desc, free (free w))
    let r := axi_io_read B a2.2 axi_desc.base_addr AXI_PWMGEN_REG_NPWM
    if r.1 ≠ SUCCESS then error_xdesc r.2.2
    else
    let data := r.2.1
    if axi_init.channel > (data + U32 - 1) % U32 then error_xdesc r.2.2
    else
    let r := axi_pwmgen_write_mask B r.2.2 axi_desc.base_addr AXI_PWMGEN_REG_CONFIG
      AXI_PWMGEN_RESET 0
    if r.1 ≠ SUCCESS then error_xdesc r.2
    else
    let r := axi_io_write B r.2 axi_desc.base_addr AXI_PWMGEN_REG_SCRATCHPAD
      AXI_PWMGEN_TEST_DATA
    if r.1 ≠ SUCCESS then error_xdesc r.2
    else
    let r := axi_io_read B r.2 axi_desc.base_addr AXI_PWMGEN_REG_SCRATCHPAD
    if r.1 ≠ SUCCESS then error_xdesc r.2.2
    else
    let data := r.2.1
    if data ≠ AXI_PWMGEN_TEST_DATA then error_xdesc r.2.2
    else
    let r := pwm_set_period B r.2.2 pwm_desc pwm_desc.period_ns
    if r.1 ≠ SUCCESS then error_xdesc r.2.2
    else
    let r := pwm_set_duty_cycle B r.2.2 r.2.1 r.2.1.duty_cycle_ns
    if r.1 ≠ SUCCESS then error_xdesc r.2.2
    else
    let r := pwm_set_phase B r.2.2 r.2.1 r.2.1.phase_ns
    if r.1 ≠ SUCCESS then error_xdesc r.2.2
    else
    let r := pwm_enable B r.2.2 r.2.1
    if r.1 ≠ SUCCESS then error_xdesc r.2.2
    else (SUCCESS, some r.2.1, r.2.2)

/-- `pwm_remove(desc)` on a handle (`desc->extra` is read before the null
check, so a null `desc` is outside the model). -/
def pwm_remove {σ : Type} (B : RegisterBus σ) (w : World σ) (desc : pwm_desc) :
    Int × World σ :=
  let axi_desc := desc.extra
  let r := axi_io_write B w axi_desc.base_addr AXI_PWMGEN_REG_CONFIG AXI_PWMGEN_RESET
  if r.1 ≠ SUCCESS then (FAILURE, r.2)
  else (SUCCESS, free (free r.2))

/-! ## Simulated buses -/

/-- A register file: every access succeeds, a read returns the value last
written to the address `base + offset` (a 32-bit address). -/
def memBus : RegisterBus (Nat → Nat) where
  read := fun s base offset => (0, s ((base + offset) % U32), s)
  write := fun s base offset value =>
    (0, fun a => if a = (base + offset) % U32 then value else s a)

/-- No core at the address: every read succeeds and returns the same word
`v`, every write succeeds and is lost. -/
def constBus (v : Nat) : RegisterBus Unit where
  read := fun s _ _ => (0, v, s)
  write := fun s _ _ _ => (0, s)

/-- A register file whose channel-count register reads `n`, all other
registers zero. -/
def coreRegs (base n : Nat) : Nat → Nat :=
  fun a => if a = (base + AXI_PWMGEN_REG_NPWM) % U32 then n else 0

/-- A world over the bus state `s` with no write issued, no live block and
`avail` blocks left on the heap. -/
def World.start {σ : Type} (s : σ) (avail : Nat) : World σ :=
  { bus := s, writes := [], heap_live := 0, heap_avail := avail }

/-- A handle on channel 0 of the core at `0x44A00000`, as a caller holds it
between two driver calls. -/
def sampleDesc (ref_clock_Hz period_ns duty_cycle_ns : Nat) (enabled : Bool) : pwm_desc :=
  { period_ns := period_ns, duty_cycle_ns := duty_cycle_ns, phase_ns := 0, polarity := 0,
    enabled := enabled,
    extra := { base_addr := 0x44A00000, ref_clock_Hz := ref_clock_Hz, channel := 0,
               ch_period := 0 } }

/-- Initialisation parameters for channel 0 of the core at `0x44A00000`. -/
def sampleParam (ref_clock_Hz period_ns duty_cycle_ns phase_ns : Nat) : pwm_init_param :=
  { period_ns := period_ns, duty_cycle_ns := duty_cycle_ns, phase_ns := phase_ns,
    polarity := 0,
    extra := { base_addr := 0x44A00000, ref_clock_Hz := ref_clock_Hz, channel := 0 } }

/-- A register file of a four-channel core at `0x44A00000`, nothing written
yet, and room for eight heap blocks. -/
def idleWorld : World (Nat → Nat) := World.start (coreRegs 0x44A00000 4) 8

/-- A register file of the core at `0x44A00000` whose config register holds
`0xF0`, all other registers zero. -/
def busyRegs : Nat → Nat :=
  fun a => if a = (0x44A00000 + AXI_PWMGEN_REG_CONFIG) % U32 then 0xF0 else 0

/-- An enabled handle on channel 0 with a 100 MHz reference clock. -/
def scenarioDesc : pwm_desc := sampleDesc 100000000 0 0 true

/-! ## Outcomes of `pwm_init` and register contents -/

/-- The handle a successful `pwm_init` stores: period and polarity from the
parameters, the duty cycle clamped to the period, phase 0, not enabled, and
the tick count of the period cached. -/
def initDesc (param : pwm_init_param) : pwm_desc :=
  { period_ns := param.period_ns,
    duty_cycle_ns := min param.duty_cycle_ns param.period_ns,
    phase_ns := 0,
    polarity := param.polarity,
    enabled := false,
    extra := { base_addr := param.extra.base_addr,
               ref_clock_Hz := param.extra.ref_clock_Hz,
               channel := param.extra.channel,
               ch_period := ns_to_cnt param.extra.ref_clock_Hz param.period_ns } }

/-- The descriptor pair `pwm_init` has built when it starts talking to the
core: the fields it copies from the parameters, all others zero. -/
def freshDesc (param : pwm_init_param) : pwm_desc :=
  { period_ns := param.period_ns, duty_cycle_ns := param.duty_cycle_ns,
    phase_ns := 0, polarity := param.polarity, enabled := false,
    extra := { base_addr := param.extra.base_addr,
               ref_clock_Hz := param.extra.ref_clock_Hz,
               channel := param.extra.channel, ch_period := 0 } }

/-- The value `pwm_init` reads from the config register before it clears the
reset bit: the read that follows the channel-count read. -/
def initConfigRead {σ : Type} (B : RegisterBus σ) (w : World σ) (param : pwm_init_param) : Nat :=
  (B.read (B.read w.bus param.extra.base_addr AXI_PWMGEN_REG_NPWM).2.2
    param.extra.base_addr AXI_PWMGEN_REG_CONFIG).2.1 % U32

/-- The seven register writes of a successful `pwm_init`, in order. -/
def initWrites {σ : Type} (B : RegisterBus σ) (w : World σ) (param : pwm_init_param) :
    List IoWrite :=
  [⟨param.extra.base_addr, AXI_PWMGEN_REG_CONFIG,
      (initConfigRead B w param &&& not32 AXI_PWMGEN_RESET) ||| (0 &&& AXI_PWMGEN_RESET)⟩,
   ⟨param.extra.base_addr, AXI_PWMGEN_REG_SCRATCHPAD, AXI_PWMGEN_TEST_DATA⟩,
   ⟨param.extra.base_addr, AXI_PWMGEN_CHX_PERIOD param.extra.channel, 0⟩,
   ⟨param.extra.base_addr, AXI_PWMGEN_CHX_DUTY param.extra.channel,
      ns_to_cnt param.extra.ref_clock_Hz (min param.duty_cycle_ns param.period_ns)⟩,
   ⟨param.extra.base_addr, AXI_PWMGEN_CHX_PHASE param.extra.channel,
      ns_to_cnt param.extra.ref_clock_Hz 0⟩,
   ⟨param.extra.base_addr, AXI_PWMGEN_CHX_PERIOD param.extra.channel,
      ns_to_cnt param.extra.ref_clock_Hz param.period_ns⟩,
   ⟨param.extra.base_addr, AXI_PWMGEN_REG_CONFIG, AXI_PWMGEN_LOAD_CONIG⟩]

/-- The register of a register file at `base + offset`. -/
def regAt (s : Nat → Nat) (base offset : Nat) : Nat := s ((base + offset) % U32)

/-- The config-register write with which `pwm_init` clears the reset bit. -/
def initConfigWrite {σ : Type} (B : RegisterBus σ) (w : World σ) (param : pwm_init_param) :
    IoWrite :=
  ⟨param.extra.base_addr, AXI_PWMGEN_REG_CONFIG,
    (initConfigRead B w param &&& not32 AXI_PWMGEN_RESET) ||| (0 &&& AXI_PWMGEN_RESET)⟩

/-! ## Faults, live handles and channel registers -/

/-- A register file whose writes are refused: every write returns the error
`code` and changes nothing, every read succeeds. -/
def failBus (code : Int) : RegisterBus (Nat → Nat) where
  read := fun s base offset => (0, s ((base + offset) % U32), s)
  write := fun s _ _ _ => (code, s)

/-- A world as it is while one handle is open: the register file of a
four-channel core at `0x44A00000`, two live blocks (the descriptor and its
`extra`) and six blocks left on the heap. -/
def openWorld : World (Nat → Nat) :=
  { bus := coreRegs 0x44A00000 4, writes := [], heap_live := 2, heap_avail := 6 }

/-- The period, duty and phase registers of channel `ch` of the core at
`base`, as a register file holds them. -/
def chanRegs (s : Nat → Nat) (base ch : Nat) : Nat × Nat × Nat :=
  (regAt s base (AXI_PWMGEN_CHX_PERIOD ch), regAt s base (AXI_PWMGEN_CHX_DUTY ch),
   regAt s base (AXI_PWMGEN_CHX_PHASE ch))

/-- An enabled handle with a 100 MHz reference clock on channel `2 ^ 30`,
for which `12 * channel` is a multiple of `2 ^ 32`. -/
def aliasDesc : pwm_desc :=
  { period_ns := 0, duty_cycle_ns := 0, phase_ns := 0, polarity := 0, enabled := true,
    extra := { base_addr := 0x44A00000, ref_clock_Hz := 100000000, channel := 1073741824,
               ch_period := 0 } }

/-! ## Tick conversion -/

/-- Exact ceiling of a quotient of naturals, as a natural-number division. -/
theorem ceil_div_eq (a b : ℕ) (hb : 0 < b) : ⌈(a : ℚ) / (b : ℚ)⌉₊ = (a + b - 1) / b := by
  have hbq : (0 : ℚ) < (b : ℚ) := by exact_mod_cast hb
  apply le_antisymm
  · rw [Nat.ceil_le, div_le_iff₀ hbq]
    have h1 : a ≤ (a + b - 1) / b * b := by
      have hd := Nat.div_add_mod (a + b - 1) b
      have hm := Nat.mod_lt (a + b - 1) hb
      rw [Nat.mul_comm] at hd
      omega
    exact_mod_cast h1
  · rcases Nat.eq_zero_or_pos ((a + b - 1) / b) with h0 | hpos
    · rw [h0]; exact Nat.zero_le _
    · have hlt : (a + b - 1) / b - 1 < ⌈(a : ℚ) / (b : ℚ)⌉₊ := by
        rw [Nat.lt_ceil, lt_div_iff₀ hbq]
        have h2 : ((a + b - 1) / b - 1) * b < a := by
          have h3 := Nat.div_mul_le_self (a + b - 1) b
          have h4 : ((a + b - 1) / b - 1) * b = (a + b - 1) / b * b - b := by
            rw [Nat.sub_mul, Nat.one_mul]
          have h5 : b ≤ (a + b - 1) / b * b := Nat.le_mul_of_pos_left b hpos
          have h6 : 0 < a := by
            rcases Nat.eq_zero_or_pos a with ha | ha
            · subst ha
              have : (0 + b - 1) / b = 0 := Nat.div_eq_of_lt (by omega)
              omega
            · exact ha
          omega
        exact_mod_cast h2
      omega

/-- Where neither the product nor the round-up sum wraps, the conversion is
the round-up division of the downscaled product. -/
theorem ns_to_cnt_of_fit (ref_clock_Hz ns : Nat)
    (hfit : (ref_clock_Hz / 1000) * ns + 999999 < 2 ^ 32) :
    ns_to_cnt ref_clock_Hz ns = ((ref_clock_Hz / 1000) * ns + 999999) / 1000000 := by
  have h1 : (ref_clock_Hz / 1000) * ns < 2 ^ 32 := by omega
  simp only [ns_to_cnt, DIV_ROUND_UP, NSEC_PER_USEC, USEC_PER_SEC, U32]
  rw [Nat.mod_eq_of_lt h1]
  have h2 : ref_clock_Hz / 1000 * ns + 1000000 - 1 = ref_clock_Hz / 1000 * ns + 999999 := by
    omega
  rw [h2, Nat.mod_eq_of_lt hfit]

/-- The tick count `pwm_set_period` caches is the conversion of its argument. -/
theorem pwm_set_period_ch_period {σ : Type} (B : RegisterBus σ) (w : World σ)
    (desc : pwm_desc) (period_ns : Nat) :
    (pwm_set_period B w desc period_ns).2.1.extra.ch_period
      = ns_to_cnt desc.extra.ref_clock_Hz period_ns := by
  unfold pwm_set_period ns_to_cnt
  dsimp only
  split_ifs <;> rfl

/-- C1 (amended): for every reference clock that is a multiple of 1000 and
every period for which the downscaled product plus the round-up term stays
below `2 ^ 32`, the tick count `pwm_set_period` computes equals
`ceil(ref_clock_Hz * period_ns / 1000000000)` in exact rational arithmetic, and
the intermediate product does not overflow 32 bits. -/
theorem pwm_set_period_ticks_exact {σ : Type} (B : RegisterBus σ) (w : World σ)
    (desc : pwm_desc) (period_ns : Nat)
    (hdvd : 1000 ∣ desc.extra.ref_clock_Hz)
    (hfit : (desc.extra.ref_clock_Hz / 1000) * period_ns + 999999 < 2 ^ 32) :
    (pwm_set_period B w desc period_ns).2.1.extra.ch_period
        = ⌈((desc.extra.ref_clock_Hz : ℚ) * (period_ns : ℚ)) / 1000000000⌉₊
      ∧ (desc.extra.ref_clock_Hz / 1000) * period_ns < 2 ^ 32 := by
  refine ⟨?_, by omega⟩
  have hcast : ((desc.extra.ref_clock_Hz : ℚ) * (period_ns : ℚ)) / 1000000000
      = ((desc.extra.ref_clock_Hz * period_ns : ℕ) : ℚ) / ((1000000000 : ℕ) : ℚ) := by
    push_cast; ring
  rw [pwm_set_period_ch_period, ns_to_cnt_of_fit _ _ hfit, hcast,
    ceil_div_eq _ _ (by norm_num)]
  obtain ⟨k, hk⟩ := hdvd
  rw [hk, Nat.mul_div_cancel_left k (by norm_num), Nat.mul_assoc]
  omega

/-- C1 witness: a 100 MHz clock and a 40 µs period. -/
theorem pwm_set_period_ticks_exact_witness :
    (pwm_set_period memBus (World.start (coreRegs 0x44A00000 4) 0)
        (sampleDesc 100000000 0 0 true) 40000).2.1.extra.ch_period
        = ⌈(((sampleDesc 100000000 0 0 true).extra.ref_clock_Hz : ℚ) * ((40000 : ℕ) : ℚ))
            / 1000000000⌉₊
      ∧ ((sampleDesc 100000000 0 0 true).extra.ref_clock_Hz / 1000) * 40000 < 2 ^ 32 :=
  pwm_set_period_ticks_exact memBus (World.start (coreRegs 0x44A00000 4) 0)
    (sampleDesc 100000000 0 0 true) 40000 (by decide) (by decide)

/-- C1 counterexample: inside the claimed ranges, a 1999 Hz clock with a 1 ms
period yields 1 tick where the exact ceiling is 2, and a 500 MHz clock with a
10 ms period overflows the 32-bit product and yields 659 ticks where the exact
ceiling is 5000000. -/
theorem tick_conversion_counterexample :
    ((1000 ≤ 1999 ∧ 1999 ≤ 500000000 ∧ 1000000 ≤ 10000000)
      ∧ (pwm_set_period memBus (World.start (coreRegs 0x44A00000 4) 0)
          (sampleDesc 1999 0 0 true) 1000000).2.1.extra.ch_period = 1
      ∧ ⌈((1999 : ℚ) * 1000000) / 1000000000⌉₊ = 2)
    ∧ ((1000 ≤ 500000000 ∧ 500000000 ≤ 500000000 ∧ 10000000 ≤ 10000000)
      ∧ 2 ^ 32 ≤ (500000000 / 1000) * 10000000
      ∧ (pwm_set_period memBus (World.start (coreRegs 0x44A00000 4) 0)
          (sampleDesc 500000000 0 0 true) 10000000).2.1.extra.ch_period = 659
      ∧ ⌈((500000000 : ℚ) * 10000000) / 1000000000⌉₊ = 5000000) := by
  refine ⟨⟨by decide, ?_, ?_⟩, ⟨by decide, by decide, ?_, ?_⟩⟩
  · rw [pwm_set_period_ch_period]; decide
  · rw [Nat.ceil_eq_iff (by norm_num)]; norm_num
  · rw [pwm_set_period_ch_period]; decide
  · rw [Nat.ceil_eq_iff (by norm_num)]; norm_num

/-! ## Effect of the setters -/

/-- The status `axi_io_write` returns is the bus's. -/
theorem axi_io_write_ret {σ : Type} (B : RegisterBus σ) (w : World σ) (base offset value : Nat) :
    (axi_io_write B w base offset value).1 = (B.write w.bus base offset value).1 := rfl

/-- Every `axi_io_write` call appends itself to the write log. -/
theorem axi_io_write_writes {σ : Type} (B : RegisterBus σ) (w : World σ)
    (base offset value : Nat) :
    (axi_io_write B w base offset value).2.writes = w.writes ++ [⟨base, offset, value⟩] := rfl

/-- `pwm_set_period` issues exactly one write, to the period register: the
tick count when the handle is enabled, 0 otherwise. -/
theorem pwm_set_period_writes {σ : Type} (B : RegisterBus σ) (w : World σ)
    (desc : pwm_desc) (period_ns : Nat) :
    (pwm_set_period B w desc period_ns).2.2.writes
      = w.writes ++ [⟨desc.extra.base_addr, AXI_PWMGEN_CHX_PERIOD desc.extra.channel,
          if desc.enabled then ns_to_cnt desc.extra.ref_clock_Hz period_ns else 0⟩] := by
  unfold pwm_set_period ns_to_cnt
  dsimp only
  split_ifs <;> simp_all [axi_io_write_writes]

/-- A successful `pwm_set_period` records its argument; only `period_ns` and
the cached tick count change. -/
theorem pwm_set_period_desc {σ : Type} (B : RegisterBus σ) (w : World σ)
    (desc : pwm_desc) (period_ns : Nat)
    (h : (pwm_set_period B w desc period_ns).1 = SUCCESS) :
    (pwm_set_period B w desc period_ns).2.1
      = { desc with period_ns := period_ns,
                    extra := { desc.extra with
                      ch_period := ns_to_cnt desc.extra.ref_clock_Hz period_ns } } := by
  unfold pwm_set_period ns_to_cnt at *
  dsimp only at *
  split_ifs at * <;> first | rfl | (exfalso; simp_all)

/-- A failing `pwm_set_period` leaves the logical values alone (the cached
tick count is already overwritten). -/
theorem pwm_set_period_desc_fail {σ : Type} (B : RegisterBus σ) (w : World σ)
    (desc : pwm_desc) (period_ns : Nat)
    (h : (pwm_set_period B w desc period_ns).1 ≠ SUCCESS) :
    (pwm_set_period B w desc period_ns).2.1
      = { desc with extra := { desc.extra with
                      ch_period := ns_to_cnt desc.extra.ref_clock_Hz period_ns } } := by
  unfold pwm_set_period ns_to_cnt at *
  dsimp only at *
  split_ifs at * <;> first | rfl | (exfalso; simp_all)

/-- `pwm_set_duty_cycle` issues exactly one write, to the duty register: the
tick conversion of the clamped duty cycle. -/
theorem pwm_set_duty_cycle_writes {σ : Type} (B : RegisterBus σ) (w : World σ)
    (desc : pwm_desc) (duty_cycle_ns : Nat) :
    (pwm_set_duty_cycle B w desc duty_cycle_ns).2.2.writes
      = w.writes ++ [⟨desc.extra.base_addr, AXI_PWMGEN_CHX_DUTY desc.extra.channel,
          ns_to_cnt desc.extra.ref_clock_Hz (min duty_cycle_ns desc.period_ns)⟩] := by
  have hmin : (if duty_cycle_ns > desc.period_ns then desc.period_ns else duty_cycle_ns)
      = min duty_cycle_ns desc.period_ns := by
    split_ifs with hgt
    · exact (Nat.min_eq_right (Nat.le_of_lt hgt)).symm
    · exact (Nat.min_eq_left (Nat.le_of_not_lt hgt)).symm
  unfold pwm_set_duty_cycle ns_to_cnt
  dsimp only
  rw [hmin]
  split_ifs <;> rfl

/-- A successful `pwm_set_duty_cycle` records the clamped duty cycle and
changes nothing else. -/
theorem pwm_set_duty_cycle_desc {σ : Type} (B : RegisterBus σ) (w : World σ)
    (desc : pwm_desc) (duty_cycle_ns : Nat)
    (h : (pwm_set_duty_cycle B w desc duty_cycle_ns).1 = SUCCESS) :
    (pwm_set_duty_cycle B w desc duty_cycle_ns).2.1
      = { desc with duty_cycle_ns := min duty_cycle_ns desc.period_ns } := by
  have hmin : (if duty_cycle_ns > desc.period_ns then desc.period_ns else duty_cycle_ns)
      = min duty_cycle_ns desc.period_ns := by
    split_ifs with hgt
    · exact (Nat.min_eq_right (Nat.le_of_lt hgt)).symm
    · exact (Nat.min_eq_left (Nat.le_of_not_lt hgt)).symm
  unfold pwm_set_duty_cycle at h ⊢
  dsimp only at h ⊢
  rw [hmin] at h ⊢
  split_ifs at h ⊢ with h1
  · exact absurd h h1
  · rfl

/-- A failing `pwm_set_duty_cycle` leaves the handle as it was. -/
theorem pwm_set_duty_cycle_desc_fail {σ : Type} (B : RegisterBus σ) (w : World σ)
    (desc : pwm_desc) (duty_cycle_ns : Nat)
    (h : (pwm_set_duty_cycle B w desc duty_cycle_ns).1 ≠ SUCCESS) :
    (pwm_set_duty_cycle B w desc duty_cycle_ns).2.1 = desc := by
  unfold pwm_set_duty_cycle at *
  dsimp only at *
  split_ifs at * <;> first | rfl | (exfalso; simp_all)

/-- `pwm_set_phase` issues exactly one write, to the phase register. -/
theorem pwm_set_phase_writes {σ : Type} (B : RegisterBus σ) (w : World σ)
    (desc : pwm_desc) (phase_ns : Nat) :
    (pwm_set_phase B w desc phase_ns).2.2.writes
      = w.writes ++ [⟨desc.extra.base_addr, AXI_PWMGEN_CHX_PHASE desc.extra.channel,
          ns_to_cnt desc.extra.ref_clock_Hz phase_ns⟩] := by
  unfold pwm_set_phase ns_to_cnt
  dsimp only
  split_ifs <;> rfl

/-- `pwm_set_phase` changes at most the recorded phase. -/
theorem pwm_set_phase_desc {σ : Type} (B : RegisterBus σ) (w : World σ)
    (desc : pwm_desc) (phase_ns : Nat) :
    (pwm_set_phase B w desc phase_ns).2.1 = desc
      ∨ (pwm_set_phase B w desc phase_ns).2.1 = { desc with phase_ns := phase_ns } := by
  unfold pwm_set_phase
  dsimp only
  split_ifs
  · exact Or.inl rfl
  · exact Or.inr rfl

/-- `pwm_enable` does not touch the handle. -/
theorem pwm_enable_desc {σ : Type} (B : RegisterBus σ) (w : World σ) (desc : pwm_desc) :
    (pwm_enable B w desc).2.1 = desc := by
  unfold pwm_enable
  dsimp only
  split_ifs <;> rfl

/-- `pwm_disable` does not touch the handle. -/
theorem pwm_disable_desc {σ : Type} (B : RegisterBus σ) (w : World σ) (desc : pwm_desc) :
    (pwm_disable B w desc).2.1 = desc := by
  unfold pwm_disable
  dsimp only
  split_ifs <;> rfl

/-- A successful `pwm_set_phase` records its argument and changes nothing
else. -/
theorem pwm_set_phase_desc_ok {σ : Type} (B : RegisterBus σ) (w : World σ)
    (desc : pwm_desc) (phase_ns : Nat)
    (h : (pwm_set_phase B w desc phase_ns).1 = SUCCESS) :
    (pwm_set_phase B w desc phase_ns).2.1 = { desc with phase_ns := phase_ns } := by
  unfold pwm_set_phase at h ⊢
  dsimp only at h ⊢
  split_ifs at h ⊢ with h1
  · exact absurd h h1
  · rfl

/-- `FAILURE` is not `SUCCESS`. -/
theorem FAILURE_ne_SUCCESS : FAILURE ≠ SUCCESS := by decide

/-- `calloc` leaves the write log alone. -/
theorem calloc_writes {σ : Type} (w : World σ) : (calloc w).2.writes = w.writes := by
  unfold calloc; split <;> rfl

/-- `calloc` leaves the bus alone. -/
theorem calloc_bus {σ : Type} (w : World σ) : (calloc w).2.bus = w.bus := by
  unfold calloc; split <;> rfl

/-- `free` leaves the write log alone. -/
theorem free_writes {σ : Type} (w : World σ) : (free w).writes = w.writes := rfl

/-- A read leaves the write log alone. -/
theorem axi_io_read_writes {σ : Type} (B : RegisterBus σ) (w : World σ) (base offset : Nat) :
    (axi_io_read B w base offset).2.2.writes = w.writes := rfl

/-- A successful `axi_pwmgen_write_mask` issues exactly one write: the value
read, with the bits of `mask` replaced by those of `data`. -/
theorem axi_pwmgen_write_mask_writes {σ : Type} (B : RegisterBus σ) (w : World σ)
    (base offset mask data : Nat)
    (h : (axi_pwmgen_write_mask B w base offset mask data).1 = 0) :
    (axi_pwmgen_write_mask B w base offset mask data).2.writes
      = w.writes ++ [⟨base, offset,
          ((axi_io_read B w base offset).2.1 &&& not32 mask) ||| (data &&& mask)⟩] := by
  unfold axi_pwmgen_write_mask at h ⊢
  dsimp only at h ⊢
  split_ifs at h ⊢ with h1
  · exact absurd h h1
  · rfl

/-- A successful `pwm_enable` issues two writes: the cached tick count to the
period register, then the load-config bit to the config register. -/
theorem pwm_enable_writes {σ : Type} (B : RegisterBus σ) (w : World σ) (desc : pwm_desc)
    (h : (pwm_enable B w desc).1 = SUCCESS) :
    (pwm_enable B w desc).2.2.writes
      = w.writes ++ [⟨desc.extra.base_addr, AXI_PWMGEN_CHX_PERIOD desc.extra.channel,
                      desc.extra.ch_period⟩,
                     ⟨desc.extra.base_addr, AXI_PWMGEN_REG_CONFIG, AXI_PWMGEN_LOAD_CONIG⟩] := by
  unfold pwm_enable at h ⊢
  dsimp only at h ⊢
  split_ifs at h ⊢ with h1
  · exact absurd h h1
  · simp [axi_io_write_writes]

/-- A successful `pwm_disable` issues two writes: 0 to the period register,
then the load-config bit to the config register. -/
theorem pwm_disable_writes {σ : Type} (B : RegisterBus σ) (w : World σ) (desc : pwm_desc)
    (h : (pwm_disable B w desc).1 = SUCCESS) :
    (pwm_disable B w desc).2.2.writes
      = w.writes ++ [⟨desc.extra.base_addr, AXI_PWMGEN_CHX_PERIOD desc.extra.channel, 0⟩,
                     ⟨desc.extra.base_addr, AXI_PWMGEN_REG_CONFIG, AXI_PWMGEN_LOAD_CONIG⟩] := by
  unfold pwm_disable at h ⊢
  dsimp only at h ⊢
  split_ifs at h ⊢ with h1
  · exact absurd h h1
  · simp [axi_io_write_writes, AXI_PWMGEN_CHANNEL_DISABLE]

/-- Case analysis on a run of `pwm_init`: a property of its result follows
from the property for every outcome of the ten calls it makes in sequence. -/
theorem pwm_init_elim {σ : Type} (B : RegisterBus σ) (w : World σ)
    (out : Option pwm_desc) (param : pwm_init_param)
    (motive : Int × Option pwm_desc × World σ → Prop)
    (H : ∀ (a1 a2 : Bool × World σ) (r1 : Int × Nat × World σ) (r2 r3 : Int × World σ)
        (r4 : Int × Nat × World σ) (r5 r6 r7 r8 : Int × pwm_desc × World σ),
        a1 = calloc w → a2 = calloc a1.2 →
        r1 = axi_io_read B a2.2 param.extra.base_addr AXI_PWMGEN_REG_NPWM →
        r2 = axi_pwmgen_write_mask B r1.2.2 param.extra.base_addr AXI_PWMGEN_REG_CONFIG
              AXI_PWMGEN_RESET 0 →
        r3 = axi_io_write B r2.2 param.extra.base_addr AXI_PWMGEN_REG_SCRATCHPAD
              AXI_PWMGEN_TEST_DATA →
        r4 = axi_io_read B r3.2 param.extra.base_addr AXI_PWMGEN_REG_SCRATCHPAD →
        r5 = pwm_set_period B r4.2.2 (freshDesc param) param.period_ns →
        r6 = pwm_set_duty_cycle B r5.2.2 r5.2.1 r5.2.1.duty_cycle_ns →
        r7 = pwm_set_phase B r6.2.2 r6.2.1 r6.2.1.phase_ns →
        r8 = pwm_enable B r7.2.2 r7.2.1 →
        motive
          (if a1.1 = false then (FAILURE, out, a1.2)
           else if a2.1 = false then (FAILURE, out, free a2.2)
           else if r1.1 ≠ SUCCESS then (FAILURE, out, free (free r1.2.2))
           else if param.extra.channel > (r1.2.1 + U32 - 1) % U32 then
             (FAILURE, out, free (free r1.2.2))
           else if r2.1 ≠ SUCCESS then (FAILURE, out, free (free r2.2))
           else if r3.1 ≠ SUCCESS then (FAILURE, out, free (free r3.2))
           else if r4.1 ≠ SUCCESS then (FAILURE, out, free (free r4.2.2))
           else if r4.2.1 ≠ AXI_PWMGEN_TEST_DATA then (FAILURE, out, free (free r4.2.2))
           else if r5.1 ≠ SUCCESS then (FAILURE, out, free (free r5.2.2))
           else if r6.1 ≠ SUCCESS then (FAILURE, out, free (free r6.2.2))
           else if r7.1 ≠ SUCCESS then (FAILURE, out, free (free r7.2.2))
           else if r8.1 ≠ SUCCESS then (FAILURE, out, free (free r8.2.2))
           else (SUCCESS, some r8.2.1, r8.2.2))) :
    motive (pwm_init B w out (some param)) :=
  H _ _ _ _ _ _ _ _ _ _ rfl rfl rfl rfl rfl rfl rfl rfl rfl rfl

/-- What a successful `pwm_init` does: the handle it stores through its
output parameter and the register writes it issues. -/
theorem pwm_init_success {σ : Type} (B : RegisterBus σ) (w : World σ)
    (out : Option pwm_desc) (param : pwm_init_param)
    (h : (pwm_init B w out (some param)).1 = SUCCESS) :
    (pwm_init B w out (some param)).2.1 = some (initDesc param)
      ∧ (pwm_init B w out (some param)).2.2.writes = w.writes ++ initWrites B w param := by
  revert h
  apply pwm_init_elim B w out param
    (fun r => r.1 = SUCCESS →
      r.2.1 = some (initDesc param) ∧ r.2.2.writes = w.writes ++ initWrites B w param)
  intro a1 a2 r1 r2 r3 r4 r5 r6 r7 r8 ha1 ha2 hr1 hr2 hr3 hr4 hr5 hr6 hr7 hr8 h
  by_cases c1 : a1.1 = false
  · rw [if_pos c1] at h; exact absurd h FAILURE_ne_SUCCESS
  rw [if_neg c1] at h ⊢
  by_cases c2 : a2.1 = false
  · rw [if_pos c2] at h; exact absurd h FAILURE_ne_SUCCESS
  rw [if_neg c2] at h ⊢
  by_cases c3 : r1.1 ≠ SUCCESS
  · rw [if_pos c3] at h; exact absurd h FAILURE_ne_SUCCESS
  rw [if_neg c3] at h ⊢
  by_cases c4 : param.extra.channel > (r1.2.1 + U32 - 1) % U32
  · rw [if_pos c4] at h; exact absurd h FAILURE_ne_SUCCESS
  rw [if_neg c4] at h ⊢
  by_cases c5 : r2.1 ≠ SUCCESS
  · rw [if_pos c5] at h; exact absurd h FAILURE_ne_SUCCESS
  rw [if_neg c5] at h ⊢
  by_cases c6 : r3.1 ≠ SUCCESS
  · rw [if_pos c6] at h; exact absurd h FAILURE_ne_SUCCESS
  rw [if_neg c6] at h ⊢
  by_cases c7 : r4.1 ≠ SUCCESS
  · rw [if_pos c7] at h; exact absurd h FAILURE_ne_SUCCESS
  rw [if_neg c7] at h ⊢
  by_cases c8 : r4.2.1 ≠ AXI_PWMGEN_TEST_DATA
  · rw [if_pos c8] at h; exact absurd h FAILURE_ne_SUCCESS
  rw [if_neg c8] at h ⊢
  by_cases c9 : r5.1 ≠ SUCCESS
  · rw [if_pos c9] at h; exact absurd h FAILURE_ne_SUCCESS
  rw [if_neg c9] at h ⊢
  by_cases c10 : r6.1 ≠ SUCCESS
  · rw [if_pos c10] at h; exact absurd h FAILURE_ne_SUCCESS
  rw [if_neg c10] at h ⊢
  by_cases c11 : r7.1 ≠ SUCCESS
  · rw [if_pos c11] at h; exact absurd h FAILURE_ne_SUCCESS
  rw [if_neg c11] at h ⊢
  by_cases c12 : r8.1 ≠ SUCCESS
  · rw [if_pos c12] at h; exact absurd h FAILURE_ne_SUCCESS
  rw [if_neg c12]
  -- the handle
  have e5 := pwm_set_period_desc B r4.2.2 (freshDesc param) param.period_ns
  rw [← hr5] at e5
  replace e5 := e5 (not_not.mp c9)
  have e6 := pwm_set_duty_cycle_desc B r5.2.2 r5.2.1 r5.2.1.duty_cycle_ns
  rw [← hr6] at e6
  replace e6 := e6 (not_not.mp c10)
  have e7 := pwm_set_phase_desc_ok B r6.2.2 r6.2.1 r6.2.1.phase_ns
  rw [← hr7] at e7
  replace e7 := e7 (not_not.mp c11)
  have e8 := pwm_enable_desc B r7.2.2 r7.2.1
  rw [← hr8] at e8
  have hd : r8.2.1 = initDesc param := by
    rw [e8, e7, e6, e5]; rfl
  -- the writes
  have w1 : r1.2.2.writes = w.writes := by
    rw [hr1, axi_io_read_writes, ha2, calloc_writes, ha1, calloc_writes]
  have b1 : r1.2.2.bus = (B.read w.bus param.extra.base_addr AXI_PWMGEN_REG_NPWM).2.2 := by
    rw [hr1, ← calloc_bus w, ← ha1, ← calloc_bus a1.2, ← ha2]; rfl
  have w2 := axi_pwmgen_write_mask_writes B r1.2.2 param.extra.base_addr
    AXI_PWMGEN_REG_CONFIG AXI_PWMGEN_RESET 0
  rw [← hr2] at w2
  replace w2 := w2 (not_not.mp c5)
  have w3 := axi_io_write_writes B r2.2 param.extra.base_addr AXI_PWMGEN_REG_SCRATCHPAD
    AXI_PWMGEN_TEST_DATA
  rw [← hr3] at w3
  have w4 : r4.2.2.writes = r3.2.writes := by rw [hr4]; rfl
  have w5 := pwm_set_period_writes B r4.2.2 (freshDesc param) param.period_ns
  rw [← hr5] at w5
  have w6 := pwm_set_duty_cycle_writes B r5.2.2 r5.2.1 r5.2.1.duty_cycle_ns
  rw [← hr6] at w6
  have w7 := pwm_set_phase_writes B r6.2.2 r6.2.1 r6.2.1.phase_ns
  rw [← hr7] at w7
  have w8 := pwm_enable_writes B r7.2.2 r7.2.1
  rw [← hr8] at w8
  replace w8 := w8 (not_not.mp c12)
  refine ⟨congrArg some hd, ?_⟩
  show r8.2.2.writes = _
  rw [w8, w7, w6, w5, w4, w3, w2, w1, e7, e6, e5]
  simp only [List.append_assoc, List.singleton_append, List.cons_append, List.nil_append]
  simp only [initWrites, initConfigRead, axi_io_read, b1]
  rfl

/-- `pwm_set_duty_cycle` never touches the AXI part of the handle. -/
theorem pwm_set_duty_cycle_extra {σ : Type} (B : RegisterBus σ) (w : World σ)
    (desc : pwm_desc) (duty_cycle_ns : Nat) :
    (pwm_set_duty_cycle B w desc duty_cycle_ns).2.1.extra = desc.extra := by
  unfold pwm_set_duty_cycle
  dsimp only
  split_ifs <;> rfl

/-- `pwm_set_period` keeps the base address, the channel and the reference
clock of the handle. -/
theorem pwm_set_period_extra {σ : Type} (B : RegisterBus σ) (w : World σ)
    (desc : pwm_desc) (period_ns : Nat) :
    (pwm_set_period B w desc period_ns).2.1.extra.base_addr = desc.extra.base_addr
      ∧ (pwm_set_period B w desc period_ns).2.1.extra.channel = desc.extra.channel
      ∧ (pwm_set_period B w desc period_ns).2.1.extra.ref_clock_Hz
          = desc.extra.ref_clock_Hz := by
  unfold pwm_set_period
  dsimp only
  generalize DIV_ROUND_UP _ _ = cnt
  generalize axi_io_write B _ _ _ _ = r
  obtain ⟨ret, w1⟩ := r
  obtain ⟨p, d, ph, pol, en, ⟨b, rc, ch, cp⟩⟩ := desc
  dsimp only
  split_ifs <;> exact ⟨rfl, rfl, rfl⟩

/-- A successful `pwm_set_period` records its argument as the period. -/
theorem pwm_set_period_period_ns {σ : Type} (B : RegisterBus σ) (w : World σ)
    (desc : pwm_desc) (period_ns : Nat)
    (h : (pwm_set_period B w desc period_ns).1 = SUCCESS) :
    (pwm_set_period B w desc period_ns).2.1.period_ns = period_ns := by
  rw [pwm_set_period_desc B w desc period_ns h]

/-! ## C2: the concrete scenario -/

/-- C2 (the code at the scenario): on every bus and every enabled handle with
a 100 MHz reference clock, `pwm_set_period(1000000)` writes 1216 to the period
register and caches 1216 as `ch_period`; when it succeeds, the following
`pwm_set_duty_cycle(500000)` writes 2756 to the duty register and the
following `pwm_set_phase(250000)` writes 3526 to the phase register: the
32-bit product `100000 * ns` has wrapped in all three. -/
theorem concrete_scenario_ticks {σ : Type} (B : RegisterBus σ) (w : World σ) (desc : pwm_desc)
    (hen : desc.enabled = true) (href : desc.extra.ref_clock_Hz = 100000000)
    (hok : (pwm_set_period B w desc 1000000).1 = SUCCESS) :
    (pwm_set_period B w desc 1000000).2.2.writes
        = w.writes ++ [⟨desc.extra.base_addr, AXI_PWMGEN_CHX_PERIOD desc.extra.channel, 1216⟩]
      ∧ (pwm_set_period B w desc 1000000).2.1.extra.ch_period = 1216
      ∧ (pwm_set_duty_cycle B (pwm_set_period B w desc 1000000).2.2
            (pwm_set_period B w desc 1000000).2.1 500000).2.2.writes
          = (pwm_set_period B w desc 1000000).2.2.writes
            ++ [⟨desc.extra.base_addr, AXI_PWMGEN_CHX_DUTY desc.extra.channel, 2756⟩]
      ∧ (pwm_set_phase B
            (pwm_set_duty_cycle B (pwm_set_period B w desc 1000000).2.2
              (pwm_set_period B w desc 1000000).2.1 500000).2.2
            (pwm_set_duty_cycle B (pwm_set_period B w desc 1000000).2.2
              (pwm_set_period B w desc 1000000).2.1 500000).2.1 250000).2.2.writes
          = (pwm_set_duty_cycle B (pwm_set_period B w desc 1000000).2.2
              (pwm_set_period B w desc 1000000).2.1 500000).2.2.writes
            ++ [⟨desc.extra.base_addr, AXI_PWMGEN_CHX_PHASE desc.extra.channel, 3526⟩] := by
  have c1 : ns_to_cnt 100000000 1000000 = 1216 := by decide
  have c2 : ns_to_cnt 100000000 (min 500000 1000000) = 2756 := by
    rw [Nat.min_eq_left (by omega)]; decide
  have c3 : ns_to_cnt 100000000 250000 = 3526 := by decide
  have hp := pwm_set_period_period_ns B w desc 1000000 hok
  obtain ⟨hb, hch, hr⟩ := pwm_set_period_extra B w desc 1000000
  have hw1 := pwm_set_period_writes B w desc 1000000
  have hc := pwm_set_period_ch_period B w desc 1000000
  generalize pwm_set_period B w desc 1000000 = x at hp hb hch hr hw1 hc ⊢
  have hw2 := pwm_set_duty_cycle_writes B x.2.2 x.2.1 500000
  have he := pwm_set_duty_cycle_extra B x.2.2 x.2.1 500000
  generalize pwm_set_duty_cycle B x.2.2 x.2.1 500000 = y at hw2 he ⊢
  have hw3 := pwm_set_phase_writes B y.2.2 y.2.1 250000
  generalize pwm_set_phase B y.2.2 y.2.1 250000 = z at hw3 ⊢
  rw [he] at hw3
  rw [hb, hch, hr] at hw2 hw3
  rw [hp] at hw2
  rw [href] at hw1 hc hw2 hw3
  rw [c1] at hw1 hc
  rw [c2] at hw2
  rw [c3] at hw3
  simp only [hen, if_true] at hw1
  exact ⟨hw1, hc, hw2, hw3⟩

/-- C2 witness: the scenario on a register file. -/
theorem concrete_scenario_ticks_witness :
    (pwm_set_period memBus idleWorld scenarioDesc 1000000).2.2.writes
        = idleWorld.writes
          ++ [⟨scenarioDesc.extra.base_addr,
               AXI_PWMGEN_CHX_PERIOD scenarioDesc.extra.channel, 1216⟩]
      ∧ (pwm_set_period memBus idleWorld scenarioDesc 1000000).2.1.extra.ch_period = 1216
      ∧ (pwm_set_duty_cycle memBus (pwm_set_period memBus idleWorld scenarioDesc 1000000).2.2
            (pwm_set_period memBus idleWorld scenarioDesc 1000000).2.1 500000).2.2.writes
          = (pwm_set_period memBus idleWorld scenarioDesc 1000000).2.2.writes
            ++ [⟨scenarioDesc.extra.base_addr,
                 AXI_PWMGEN_CHX_DUTY scenarioDesc.extra.channel, 2756⟩]
      ∧ (pwm_set_phase memBus
            (pwm_set_duty_cycle memBus
              (pwm_set_period memBus idleWorld scenarioDesc 1000000).2.2
              (pwm_set_period memBus idleWorld scenarioDesc 1000000).2.1 500000).2.2
            (pwm_set_duty_cycle memBus
              (pwm_set_period memBus idleWorld scenarioDesc 1000000).2.2
              (pwm_set_period memBus idleWorld scenarioDesc 1000000).2.1 500000).2.1
            250000).2.2.writes
          = (pwm_set_duty_cycle memBus
              (pwm_set_period memBus idleWorld scenarioDesc 1000000).2.2
              (pwm_set_period memBus idleWorld scenarioDesc 1000000).2.1 500000).2.2.writes
            ++ [⟨scenarioDesc.extra.base_addr,
                 AXI_PWMGEN_CHX_PHASE scenarioDesc.extra.channel, 3526⟩] :=
  concrete_scenario_ticks memBus idleWorld scenarioDesc rfl rfl rfl

/-! ## Field-by-field effect of the setters -/

/-- `pwm_set_period` changes no logical value but the period: that one is
the argument after a success and untouched after a failure. -/
theorem pwm_set_period_fields {σ : Type} (B : RegisterBus σ) (w : World σ)
    (desc : pwm_desc) (period_ns : Nat) :
    (pwm_set_period B w desc period_ns).2.1.duty_cycle_ns = desc.duty_cycle_ns
      ∧ (pwm_set_period B w desc period_ns).2.1.phase_ns = desc.phase_ns
      ∧ (pwm_set_period B w desc period_ns).2.1.enabled = desc.enabled
      ∧ (pwm_set_period B w desc period_ns).2.1.polarity = desc.polarity
      ∧ ((pwm_set_period B w desc period_ns).1 = SUCCESS →
          (pwm_set_period B w desc period_ns).2.1.period_ns = period_ns)
      ∧ ((pwm_set_period B w desc period_ns).1 ≠ SUCCESS →
          (pwm_set_period B w desc period_ns).2.1.period_ns = desc.period_ns) := by
  unfold pwm_set_period
  dsimp only
  generalize DIV_ROUND_UP _ _ = cnt
  generalize axi_io_write B _ _ _ _ = r
  obtain ⟨ret, w1⟩ := r
  obtain ⟨p, d, ph, pol, en, ⟨b, rc, ch, cp⟩⟩ := desc
  dsimp only
  split_ifs with h1
  · exact ⟨rfl, rfl, rfl, rfl, fun h => absurd h h1, fun _ => rfl⟩
  · exact ⟨rfl, rfl, rfl, rfl, fun _ => rfl, fun h => absurd rfl h⟩

/-- `pwm_set_duty_cycle` changes no value but the duty cycle: that one is the
argument clamped to the period after a success and untouched after a
failure. -/
theorem pwm_set_duty_cycle_fields {σ : Type} (B : RegisterBus σ) (w : World σ)
    (desc : pwm_desc) (duty_cycle_ns : Nat) :
    (pwm_set_duty_cycle B w desc duty_cycle_ns).2.1.period_ns = desc.period_ns
      ∧ (pwm_set_duty_cycle B w desc duty_cycle_ns).2.1.phase_ns = desc.phase_ns
      ∧ (pwm_set_duty_cycle B w desc duty_cycle_ns).2.1.enabled = desc.enabled
      ∧ (pwm_set_duty_cycle B w desc duty_cycle_ns).2.1.polarity = desc.polarity
      ∧ ((pwm_set_duty_cycle B w desc duty_cycle_ns).1 = SUCCESS →
          (pwm_set_duty_cycle B w desc duty_cycle_ns).2.1.duty_cycle_ns
            = min duty_cycle_ns desc.period_ns)
      ∧ ((pwm_set_duty_cycle B w desc duty_cycle_ns).1 ≠ SUCCESS →
          (pwm_set_duty_cycle B w desc duty_cycle_ns).2.1.duty_cycle_ns
            = desc.duty_cycle_ns) := by
  have hmin : (if duty_cycle_ns > desc.period_ns then desc.period_ns else duty_cycle_ns)
      = min duty_cycle_ns desc.period_ns := by
    split_ifs with hgt
    · exact (Nat.min_eq_right (Nat.le_of_lt hgt)).symm
    · exact (Nat.min_eq_left (Nat.le_of_not_lt hgt)).symm
  unfold pwm_set_duty_cycle
  dsimp only
  rw [hmin]
  generalize DIV_ROUND_UP _ _ = cnt
  generalize axi_io_write B _ _ _ _ = r
  obtain ⟨ret, w1⟩ := r
  obtain ⟨p, d, ph, pol, en, ⟨b, rc, ch, cp⟩⟩ := desc
  dsimp only
  split_ifs with h1
  · exact ⟨rfl, rfl, rfl, rfl, fun h => absurd h h1, fun _ => rfl⟩
  · exact ⟨rfl, rfl, rfl, rfl, fun _ => rfl, fun h => absurd rfl h⟩

/-- `pwm_set_phase` changes no value but the phase: that one is the argument
after a success and untouched after a failure. -/
theorem pwm_set_phase_fields {σ : Type} (B : RegisterBus σ) (w : World σ)
    (desc : pwm_desc) (phase_ns : Nat) :
    (pwm_set_phase B w desc phase_ns).2.1.period_ns = desc.period_ns
      ∧ (pwm_set_phase B w desc phase_ns).2.1.duty_cycle_ns = desc.duty_cycle_ns
      ∧ (pwm_set_phase B w desc phase_ns).2.1.enabled = desc.enabled
      ∧ (pwm_set_phase B w desc phase_ns).2.1.polarity = desc.polarity
      ∧ (pwm_set_phase B w desc phase_ns).2.1.extra = desc.extra
      ∧ ((pwm_set_phase B w desc phase_ns).1 = SUCCESS →
          (pwm_set_phase B w desc phase_ns).2.1.phase_ns = phase_ns)
      ∧ ((pwm_set_phase B w desc phase_ns).1 ≠ SUCCESS →
          (pwm_set_phase B w desc phase_ns).2.1.phase_ns = desc.phase_ns) := by
  unfold pwm_set_phase
  dsimp only
  generalize DIV_ROUND_UP _ _ = cnt
  generalize axi_io_write B _ _ _ _ = r
  obtain ⟨ret, w1⟩ := r
  obtain ⟨p, d, ph, pol, en, ⟨b, rc, ch, cp⟩⟩ := desc
  dsimp only
  split_ifs with h1
  · exact ⟨rfl, rfl, rfl, rfl, rfl, fun h => absurd h h1, fun _ => rfl⟩
  · exact ⟨rfl, rfl, rfl, rfl, rfl, fun _ => rfl, fun h => absurd rfl h⟩

/-! ## C3: the duty cycle never exceeds the period -/

/-- C3 (amended): `duty_cycle_ns ≤ period_ns` holds for the handle every
successful `pwm_init` returns, and every call of `pwm_set_duty_cycle`,
`pwm_set_phase`, `pwm_enable` and `pwm_disable`, successful or failing, and
every failing `pwm_set_period` preserves it; a successful `pwm_set_period(x)`
preserves it exactly when `x` is not below the recorded duty cycle. -/
theorem duty_le_period_preserved {σ : Type} (B : RegisterBus σ) (w : World σ)
    (desc : pwm_desc) (x : Nat) (hinv : desc.duty_cycle_ns ≤ desc.period_ns) :
    (pwm_set_duty_cycle B w desc x).2.1.duty_cycle_ns
        ≤ (pwm_set_duty_cycle B w desc x).2.1.period_ns
      ∧ (pwm_set_phase B w desc x).2.1.duty_cycle_ns
          ≤ (pwm_set_phase B w desc x).2.1.period_ns
      ∧ (pwm_enable B w desc).2.1.duty_cycle_ns ≤ (pwm_enable B w desc).2.1.period_ns
      ∧ (pwm_disable B w desc).2.1.duty_cycle_ns ≤ (pwm_disable B w desc).2.1.period_ns
      ∧ ((pwm_set_period B w desc x).1 ≠ SUCCESS →
          (pwm_set_period B w desc x).2.1.duty_cycle_ns
            ≤ (pwm_set_period B w desc x).2.1.period_ns)
      ∧ ((pwm_set_period B w desc x).1 = SUCCESS →
          ((pwm_set_period B w desc x).2.1.duty_cycle_ns
              ≤ (pwm_set_period B w desc x).2.1.period_ns
            ↔ desc.duty_cycle_ns ≤ x))
      ∧ (∀ (out : Option pwm_desc) (param : pwm_init_param),
          (pwm_init B w out (some param)).1 = SUCCESS →
          ∃ d, (pwm_init B w out (some param)).2.1 = some d
            ∧ d.duty_cycle_ns ≤ d.period_ns) := by
  refine ⟨?_, ?_, ?_, ?_, ?_, ?_, ?_⟩
  · obtain ⟨hp, _, _, _, hok, hfail⟩ := pwm_set_duty_cycle_fields B w desc x
    by_cases hs : (pwm_set_duty_cycle B w desc x).1 = SUCCESS
    · rw [hok hs, hp]; exact Nat.min_le_right _ _
    · rw [hfail hs, hp]; exact hinv
  · obtain ⟨hp, hd, _⟩ := pwm_set_phase_fields B w desc x
    rw [hp, hd]; exact hinv
  · rw [pwm_enable_desc]; exact hinv
  · rw [pwm_disable_desc]; exact hinv
  · intro hs
    obtain ⟨hd, _, _, _, _, hfail⟩ := pwm_set_period_fields B w desc x
    rw [hd, hfail hs]; exact hinv
  · intro hs
    obtain ⟨hd, _, _, _, hok, _⟩ := pwm_set_period_fields B w desc x
    rw [hd, hok hs]
  · intro out param hs
    refine ⟨initDesc param, (pwm_init_success B w out param hs).1, ?_⟩
    exact Nat.min_le_right _ _

/-- C3 witness: a handle with period 1000 ns and duty cycle 500 ns on a
register file, and the argument 2000. -/
theorem duty_le_period_preserved_witness :
    (pwm_set_duty_cycle memBus idleWorld (sampleDesc 100000000 1000 500 true)
        2000).2.1.duty_cycle_ns
        ≤ (pwm_set_duty_cycle memBus idleWorld (sampleDesc 100000000 1000 500 true)
            2000).2.1.period_ns
      ∧ ((pwm_set_period memBus idleWorld (sampleDesc 100000000 1000 500 true) 2000).1
            = SUCCESS →
          ((pwm_set_period memBus idleWorld (sampleDesc 100000000 1000 500 true)
              2000).2.1.duty_cycle_ns
              ≤ (pwm_set_period memBus idleWorld (sampleDesc 100000000 1000 500 true)
                  2000).2.1.period_ns
            ↔ (sampleDesc 100000000 1000 500 true).duty_cycle_ns ≤ 2000)) :=
  ⟨(duty_le_period_preserved memBus idleWorld (sampleDesc 100000000 1000 500 true) 2000
      (by decide)).1,
   (duty_le_period_preserved memBus idleWorld (sampleDesc 100000000 1000 500 true) 2000
      (by decide)).2.2.2.2.2.1⟩

/-- C3 counterexample: `pwm_init` with period 1000 ns and duty cycle 500 ns
succeeds on a register file; on the handle it returns, `pwm_set_period(100)`
succeeds and leaves the duty cycle at 500 ns above the period of 100 ns. -/
theorem duty_le_period_counterexample :
    (pwm_init memBus idleWorld none (some (sampleParam 100000000 1000 500 0))).1 = SUCCESS
      ∧ (pwm_init memBus idleWorld none (some (sampleParam 100000000 1000 500 0))).2.1
          = some (initDesc (sampleParam 100000000 1000 500 0))
      ∧ (initDesc (sampleParam 100000000 1000 500 0)).duty_cycle_ns = 500
      ∧ (initDesc (sampleParam 100000000 1000 500 0)).period_ns = 1000
      ∧ (pwm_set_period memBus
          (pwm_init memBus idleWorld none (some (sampleParam 100000000 1000 500 0))).2.2
          (initDesc (sampleParam 100000000 1000 500 0)) 100).1 = SUCCESS
      ∧ (pwm_set_period memBus
          (pwm_init memBus idleWorld none (some (sampleParam 100000000 1000 500 0))).2.2
          (initDesc (sampleParam 100000000 1000 500 0)) 100).2.1.duty_cycle_ns = 500
      ∧ (pwm_set_period memBus
          (pwm_init memBus idleWorld none (some (sampleParam 100000000 1000 500 0))).2.2
          (initDesc (sampleParam 100000000 1000 500 0)) 100).2.1.period_ns = 100 := by
  have h0 : (pwm_init memBus idleWorld none (some (sampleParam 100000000 1000 500 0))).1
      = SUCCESS := by decide
  have h1 : ∀ w : World (Nat → Nat),
      (pwm_set_period memBus w (initDesc (sampleParam 100000000 1000 500 0)) 100).1
        = SUCCESS := fun _ => rfl
  refine ⟨h0, (pwm_init_success _ _ _ _ h0).1, by decide, rfl, h1 _, ?_, ?_⟩
  · rw [(pwm_set_period_fields _ _ _ _).1]; decide
  · exact (pwm_set_period_fields _ _ _ _).2.2.2.2.1 (h1 _)

/-! ## C4: duty-cycle clamping -/

/-- The status of `pwm_set_duty_cycle` is the status of its one bus write:
clamping raises no error of its own. -/
theorem pwm_set_duty_cycle_ret {σ : Type} (B : RegisterBus σ) (w : World σ)
    (desc : pwm_desc) (duty_cycle_ns : Nat) :
    (pwm_set_duty_cycle B w desc duty_cycle_ns).1
      = (B.write w.bus desc.extra.base_addr (AXI_PWMGEN_CHX_DUTY desc.extra.channel)
          (ns_to_cnt desc.extra.ref_clock_Hz (min duty_cycle_ns desc.period_ns))).1 := by
  have hmin : (if duty_cycle_ns > desc.period_ns then desc.period_ns else duty_cycle_ns)
      = min duty_cycle_ns desc.period_ns := by
    split_ifs with hgt
    · exact (Nat.min_eq_right (Nat.le_of_lt hgt)).symm
    · exact (Nat.min_eq_left (Nat.le_of_not_lt hgt)).symm
  unfold pwm_set_duty_cycle ns_to_cnt
  dsimp only
  rw [hmin, axi_io_write_ret]
  generalize DIV_ROUND_UP _ _ = cnt
  generalize (B.write w.bus desc.extra.base_addr _ cnt).1 = ret
  split_ifs with h1
  · rfl
  · exact (not_not.mp h1).symm

/-- C4: a successful `pwm_set_duty_cycle(d)` with `d > period_ns` records
`period_ns` as the duty cycle, writes the tick conversion of `period_ns` to
the duty register, and `pwm_get_duty_cycle` then returns `period_ns`; with
`d ≤ period_ns` it records and returns `d`.  Its status is that of the bus
write alone, so the clamping is silent. -/
theorem pwm_set_duty_cycle_clamps {σ : Type} (B : RegisterBus σ) (w : World σ)
    (desc : pwm_desc) (d : Nat)
    (hok : (pwm_set_duty_cycle B w desc d).1 = SUCCESS) :
    (d > desc.period_ns →
        (pwm_set_duty_cycle B w desc d).2.1.duty_cycle_ns = desc.period_ns
        ∧ (pwm_set_duty_cycle B w desc d).2.2.writes
            = w.writes ++ [⟨desc.extra.base_addr, AXI_PWMGEN_CHX_DUTY desc.extra.channel,
                            ns_to_cnt desc.extra.ref_clock_Hz desc.period_ns⟩]
        ∧ pwm_get_duty_cycle (pwm_set_duty_cycle B w desc d).2.1
            = (SUCCESS, desc.period_ns))
      ∧ (d ≤ desc.period_ns →
        (pwm_set_duty_cycle B w desc d).2.1.duty_cycle_ns = d
        ∧ (pwm_set_duty_cycle B w desc d).2.2.writes
            = w.writes ++ [⟨desc.extra.base_addr, AXI_PWMGEN_CHX_DUTY desc.extra.channel,
                            ns_to_cnt desc.extra.ref_clock_Hz d⟩]
        ∧ pwm_get_duty_cycle (pwm_set_duty_cycle B w desc d).2.1 = (SUCCESS, d))
      ∧ (pwm_set_duty_cycle B w desc d).1
          = (B.write w.bus desc.extra.base_addr (AXI_PWMGEN_CHX_DUTY desc.extra.channel)
              (ns_to_cnt desc.extra.ref_clock_Hz (min d desc.period_ns))).1 := by
  have hd := (pwm_set_duty_cycle_fields B w desc d).2.2.2.2.1 hok
  have hw := pwm_set_duty_cycle_writes B w desc d
  refine ⟨fun hgt => ?_, fun hle => ?_, pwm_set_duty_cycle_ret B w desc d⟩
  · have hm : min d desc.period_ns = desc.period_ns := Nat.min_eq_right (Nat.le_of_lt hgt)
    rw [hm] at hd hw
    refine ⟨hd, hw, ?_⟩
    unfold pwm_get_duty_cycle
    rw [hd]
  · have hm : min d desc.period_ns = d := Nat.min_eq_left hle
    rw [hm] at hd hw
    refine ⟨hd, hw, ?_⟩
    unfold pwm_get_duty_cycle
    rw [hd]

/-- C4 witness: a duty cycle of 5000 ns requested on a handle whose period is
1000 ns, over a register file. -/
theorem pwm_set_duty_cycle_clamps_witness :
    (pwm_set_duty_cycle memBus idleWorld (sampleDesc 100000000 1000 0 true) 5000).2.1.duty_cycle_ns
        = (sampleDesc 100000000 1000 0 true).period_ns
      ∧ (pwm_set_duty_cycle memBus idleWorld (sampleDesc 100000000 1000 0 true) 5000).2.2.writes
          = idleWorld.writes
            ++ [⟨(sampleDesc 100000000 1000 0 true).extra.base_addr,
                 AXI_PWMGEN_CHX_DUTY (sampleDesc 100000000 1000 0 true).extra.channel,
                 ns_to_cnt (sampleDesc 100000000 1000 0 true).extra.ref_clock_Hz
                   (sampleDesc 100000000 1000 0 true).period_ns⟩]
      ∧ pwm_get_duty_cycle
          (pwm_set_duty_cycle memBus idleWorld (sampleDesc 100000000 1000 0 true) 5000).2.1
          = (SUCCESS, (sampleDesc 100000000 1000 0 true).period_ns) :=
  (pwm_set_duty_cycle_clamps memBus idleWorld (sampleDesc 100000000 1000 0 true) 5000 rfl).1
    (by decide)

/-! ## C5: disable / enable round trip on a register file -/

/-- Writing a register file makes the register read back the value. -/
theorem memBus_write_same (s : Nat → Nat) (base offset value : Nat) :
    regAt (memBus.write s base offset value).2 base offset = value := by
  simp [regAt, memBus]

/-- Writing a register file leaves a register at another 32-bit offset of the
same core alone. -/
theorem memBus_write_other (s : Nat → Nat) (base offset offset2 value : Nat)
    (h1 : offset < U32) (h2 : offset2 < U32) (hne : offset2 ≠ offset) :
    regAt (memBus.write s base offset value).2 base offset2 = regAt s base offset2 := by
  have hne2 : (base + offset2) % U32 ≠ (base + offset) % U32 := by
    unfold U32 at *
    omega
  simp [regAt, memBus, hne2]

/-- Every channel register offset is a 32-bit value. -/
theorem AXI_PWMGEN_CHX_PERIOD_lt (ch : Nat) : AXI_PWMGEN_CHX_PERIOD ch < U32 :=
  Nat.mod_lt _ (by decide)

/-- On a register file `pwm_set_period` succeeds. -/
theorem pwm_set_period_memBus_ret (w : World (Nat → Nat)) (desc : pwm_desc) (period_ns : Nat) :
    (pwm_set_period memBus w desc period_ns).1 = SUCCESS := by
  unfold pwm_set_period
  dsimp only
  generalize DIV_ROUND_UP _ _ = cnt
  rfl

/-- The bus state `pwm_set_period` leaves behind is that of its one write. -/
theorem pwm_set_period_bus {σ : Type} (B : RegisterBus σ) (w : World σ)
    (desc : pwm_desc) (period_ns : Nat) :
    (pwm_set_period B w desc period_ns).2.2.bus
      = (B.write w.bus desc.extra.base_addr (AXI_PWMGEN_CHX_PERIOD desc.extra.channel)
          (if desc.enabled then ns_to_cnt desc.extra.ref_clock_Hz period_ns else 0)).2 := by
  unfold pwm_set_period ns_to_cnt
  dsimp only
  generalize DIV_ROUND_UP _ _ = cnt
  split_ifs <;> rfl

/-- On a register file `pwm_disable` succeeds, keeps the handle, and leaves
0 in the period register and the load-config bit in the config register. -/
theorem pwm_disable_memBus (w : World (Nat → Nat)) (desc : pwm_desc) :
    (pwm_disable memBus w desc).1 = SUCCESS
      ∧ (pwm_disable memBus w desc).2.2.bus
          = (memBus.write
              (memBus.write w.bus desc.extra.base_addr
                (AXI_PWMGEN_CHX_PERIOD desc.extra.channel) 0).2
              desc.extra.base_addr AXI_PWMGEN_REG_CONFIG AXI_PWMGEN_LOAD_CONIG).2 :=
  ⟨rfl, rfl⟩

/-- On a register file `pwm_enable` succeeds, keeps the handle, and leaves
the cached tick count in the period register and the load-config bit in the
config register. -/
theorem pwm_enable_memBus (w : World (Nat → Nat)) (desc : pwm_desc) :
    (pwm_enable memBus w desc).1 = SUCCESS
      ∧ (pwm_enable memBus w desc).2.2.bus
          = (memBus.write
              (memBus.write w.bus desc.extra.base_addr
                (AXI_PWMGEN_CHX_PERIOD desc.extra.channel) desc.extra.ch_period).2
              desc.extra.base_addr AXI_PWMGEN_REG_CONFIG AXI_PWMGEN_LOAD_CONIG).2 :=
  ⟨rfl, rfl⟩

/-- C5: on a register file, for every period `P` and every handle whose
period register is not the config register, `pwm_set_period(P)`,
`pwm_disable()` and `pwm_enable()` all succeed; after the disable the period
register holds 0; after the enable it holds the tick count `pwm_set_period`
computed for `P`, and `pwm_get_period` returns `P`. -/
theorem disable_enable_round_trip (w : World (Nat → Nat)) (desc : pwm_desc) (P : Nat)
    (hne : AXI_PWMGEN_CHX_PERIOD desc.extra.channel ≠ AXI_PWMGEN_REG_CONFIG) :
    ((pwm_set_period memBus w desc P).1 = SUCCESS
      ∧ (pwm_disable memBus (pwm_set_period memBus w desc P).2.2
          (pwm_set_period memBus w desc P).2.1).1 = SUCCESS
      ∧ (pwm_enable memBus
          (pwm_disable memBus (pwm_set_period memBus w desc P).2.2
            (pwm_set_period memBus w desc P).2.1).2.2
          (pwm_disable memBus (pwm_set_period memBus w desc P).2.2
            (pwm_set_period memBus w desc P).2.1).2.1).1 = SUCCESS)
      ∧ regAt
          (pwm_disable memBus (pwm_set_period memBus w desc P).2.2
            (pwm_set_period memBus w desc P).2.1).2.2.bus
          desc.extra.base_addr (AXI_PWMGEN_CHX_PERIOD desc.extra.channel) = 0
      ∧ regAt
          (pwm_enable memBus
            (pwm_disable memBus (pwm_set_period memBus w desc P).2.2
              (pwm_set_period memBus w desc P).2.1).2.2
            (pwm_disable memBus (pwm_set_period memBus w desc P).2.2
              (pwm_set_period memBus w desc P).2.1).2.1).2.2.bus
          desc.extra.base_addr (AXI_PWMGEN_CHX_PERIOD desc.extra.channel)
          = ns_to_cnt desc.extra.ref_clock_Hz P
      ∧ (pwm_set_period memBus w desc P).2.1.extra.ch_period
          = ns_to_cnt desc.extra.ref_clock_Hz P
      ∧ pwm_get_period
          (pwm_enable memBus
            (pwm_disable memBus (pwm_set_period memBus w desc P).2.2
              (pwm_set_period memBus w desc P).2.1).2.2
            (pwm_disable memBus (pwm_set_period memBus w desc P).2.2
              (pwm_set_period memBus w desc P).2.1).2.1).2.1
          = (SUCCESS, P) := by
  have h1 := pwm_set_period_memBus_ret w desc P
  obtain ⟨hb, hch, _⟩ := pwm_set_period_extra memBus w desc P
  have hc := pwm_set_period_ch_period memBus w desc P
  have hp := (pwm_set_period_fields memBus w desc P).2.2.2.2.1 h1
  generalize pwm_set_period memBus w desc P = x at h1 hb hch hc hp ⊢
  obtain ⟨h2, hbus2⟩ := pwm_disable_memBus x.2.2 x.2.1
  have hd2 := pwm_disable_desc memBus x.2.2 x.2.1
  generalize pwm_disable memBus x.2.2 x.2.1 = y at h2 hbus2 hd2 ⊢
  obtain ⟨h3, hbus3⟩ := pwm_enable_memBus y.2.2 y.2.1
  have hd3 := pwm_enable_desc memBus y.2.2 y.2.1
  generalize pwm_enable memBus y.2.2 y.2.1 = z at h3 hbus3 hd3 ⊢
  have hcfg : AXI_PWMGEN_REG_CONFIG < U32 := by decide
  have hper := AXI_PWMGEN_CHX_PERIOD_lt desc.extra.channel
  refine ⟨⟨h1, h2, h3⟩, ?_, ?_, hc, ?_⟩
  · rw [hbus2, hb, hch, memBus_write_other _ _ _ _ _ hcfg hper hne, memBus_write_same]
  · rw [hbus3, hd2, hb, hch, hc, memBus_write_other _ _ _ _ _ hcfg hper hne,
      memBus_write_same]
  · unfold pwm_get_period
    rw [hd3, hd2, hp]

/-- C5 witness: the enabled 100 MHz handle on channel 0 and a period of
1000 ns. -/
theorem disable_enable_round_trip_witness :
    regAt
        (pwm_disable memBus (pwm_set_period memBus idleWorld scenarioDesc 1000).2.2
          (pwm_set_period memBus idleWorld scenarioDesc 1000).2.1).2.2.bus
        scenarioDesc.extra.base_addr (AXI_PWMGEN_CHX_PERIOD scenarioDesc.extra.channel) = 0
      ∧ regAt
          (pwm_enable memBus
            (pwm_disable memBus (pwm_set_period memBus idleWorld scenarioDesc 1000).2.2
              (pwm_set_period memBus idleWorld scenarioDesc 1000).2.1).2.2
            (pwm_disable memBus (pwm_set_period memBus idleWorld scenarioDesc 1000).2.2
              (pwm_set_period memBus idleWorld scenarioDesc 1000).2.1).2.1).2.2.bus
          scenarioDesc.extra.base_addr (AXI_PWMGEN_CHX_PERIOD scenarioDesc.extra.channel)
          = ns_to_cnt scenarioDesc.extra.ref_clock_Hz 1000 :=
  ⟨(disable_enable_round_trip idleWorld scenarioDesc 1000 (by decide)).2.1,
   (disable_enable_round_trip idleWorld scenarioDesc 1000 (by decide)).2.2.1⟩

/-! ## C6: the channel bound check -/

/-- Where the channel-count register reads a count of at least 1,
`pwm_init` rejects every channel index that is not below the count, before
any register write, and stores no handle. -/
theorem pwm_init_channel_bound {σ : Type} (B : RegisterBus σ) (w : World σ)
    (out : Option pwm_desc) (param : pwm_init_param)
    (hcount : 1 ≤ (B.read w.bus param.extra.base_addr AXI_PWMGEN_REG_NPWM).2.1 % U32)
    (hch : (B.read w.bus param.extra.base_addr AXI_PWMGEN_REG_NPWM).2.1 % U32
      ≤ param.extra.channel) :
    (pwm_init B w out (some param)).1 = FAILURE
      ∧ (pwm_init B w out (some param)).2.1 = out
      ∧ (pwm_init B w out (some param)).2.2.writes = w.writes := by
  apply pwm_init_elim B w out param
    (fun r => r.1 = FAILURE ∧ r.2.1 = out ∧ r.2.2.writes = w.writes)
  intro a1 a2 r1 r2 r3 r4 r5 r6 r7 r8 ha1 ha2 hr1 _ _ _ _ _ _ _
  have w1 : r1.2.2.writes = w.writes := by
    rw [hr1, axi_io_read_writes, ha2, calloc_writes, ha1, calloc_writes]
  have d1 : r1.2.1 = (B.read w.bus param.extra.base_addr AXI_PWMGEN_REG_NPWM).2.1 % U32 := by
    rw [hr1, ← calloc_bus w, ← ha1, ← calloc_bus a1.2, ← ha2]; rfl
  by_cases c1 : a1.1 = false
  · rw [if_pos c1]; exact ⟨rfl, rfl, by rw [ha1, calloc_writes]⟩
  rw [if_neg c1]
  by_cases c2 : a2.1 = false
  · rw [if_pos c2]
    exact ⟨rfl, rfl, by rw [free_writes, ha2, calloc_writes, ha1, calloc_writes]⟩
  rw [if_neg c2]
  by_cases c3 : r1.1 ≠ SUCCESS
  · rw [if_pos c3]; exact ⟨rfl, rfl, by rw [free_writes, free_writes, w1]⟩
  rw [if_neg c3]
  have c4 : param.extra.channel > (r1.2.1 + U32 - 1) % U32 := by
    rw [d1]
    have hlt : (B.read w.bus param.extra.base_addr AXI_PWMGEN_REG_NPWM).2.1 % U32 < U32 :=
      Nat.mod_lt _ (by decide)
    generalize (B.read w.bus param.extra.base_addr AXI_PWMGEN_REG_NPWM).2.1 % U32 = n
      at hcount hch hlt
    unfold U32 at *
    omega
  rw [if_pos c4]
  exact ⟨rfl, rfl, by rw [free_writes, free_writes, w1]⟩

/-- C6 (the code at the failing input): over a register file whose
channel-count register reads 0, `pwm_init` for channel 0, a channel index
equal to the reported count, passes the bound check (`data - 1` wraps to
`0xFFFFFFFF`), returns `SUCCESS`, stores a handle and issues its seven
register writes. -/
theorem pwm_init_zero_count_accepted :
    regAt (coreRegs 0x44A00000 0) 0x44A00000 AXI_PWMGEN_REG_NPWM = 0
      ∧ (sampleParam 100000000 1000 500 0).extra.channel = 0
      ∧ (pwm_init memBus (World.start (coreRegs 0x44A00000 0) 8) none
          (some (sampleParam 100000000 1000 500 0))).1 = SUCCESS
      ∧ (pwm_init memBus (World.start (coreRegs 0x44A00000 0) 8) none
          (some (sampleParam 100000000 1000 500 0))).2.1
          = some (initDesc (sampleParam 100000000 1000 500 0))
      ∧ (pwm_init memBus (World.start (coreRegs 0x44A00000 0) 8) none
          (some (sampleParam 100000000 1000 500 0))).2.2.writes.length = 7 := by
  have h0 : (pwm_init memBus (World.start (coreRegs 0x44A00000 0) 8) none
      (some (sampleParam 100000000 1000 500 0))).1 = SUCCESS := by decide
  refine ⟨by decide, rfl, h0, (pwm_init_success _ _ _ _ h0).1, ?_⟩
  rw [(pwm_init_success _ _ _ _ h0).2]
  rfl

/-! ## C7: self-test gating -/

/-- A failing `calloc` leaves the world as it was. -/
theorem calloc_fail {σ : Type} (w : World σ) (h : (calloc w).1 = false) : (calloc w).2 = w := by
  unfold calloc at h ⊢
  cases hA : w.heap_avail with
  | zero => simp only [hA]
  | succ n => simp [hA] at h

/-- A successful `calloc` adds one live block and takes one from the heap. -/
theorem calloc_ok {σ : Type} (w : World σ) (h : ¬ (calloc w).1 = false) :
    (calloc w).2.heap_live = w.heap_live + 1
      ∧ (calloc w).2.heap_avail + 1 = w.heap_avail := by
  unfold calloc at h ⊢
  cases hA : w.heap_avail with
  | zero => simp [hA] at h
  | succ n => simp [hA]

/-- `axi_pwmgen_write_mask` does not touch the heap. -/
theorem axi_pwmgen_write_mask_heap {σ : Type} (B : RegisterBus σ) (w : World σ)
    (base offset mask data : Nat) :
    (axi_pwmgen_write_mask B w base offset mask data).2.heap_live = w.heap_live
      ∧ (axi_pwmgen_write_mask B w base offset mask data).2.heap_avail = w.heap_avail := by
  unfold axi_pwmgen_write_mask
  dsimp only
  split_ifs <;> exact ⟨rfl, rfl⟩

/-- A failing `axi_pwmgen_write_mask` has issued no write: its read failed,
or its one write did. -/
theorem axi_pwmgen_write_mask_writes_any {σ : Type} (B : RegisterBus σ) (w : World σ)
    (base offset mask data : Nat) :
    (axi_pwmgen_write_mask B w base offset mask data).2.writes = w.writes
      ∨ (axi_pwmgen_write_mask B w base offset mask data).2.writes
          = w.writes ++ [⟨base, offset,
              ((axi_io_read B w base offset).2.1 &&& not32 mask) ||| (data &&& mask)⟩] := by
  unfold axi_pwmgen_write_mask
  dsimp only
  split_ifs
  · exact Or.inl rfl
  · exact Or.inr rfl

/-- The bus state after `axi_pwmgen_write_mask` does not depend on the heap
or the write log. -/
theorem axi_pwmgen_write_mask_bus {σ : Type} (B : RegisterBus σ) (w w2 : World σ)
    (base offset mask data : Nat) (h : w.bus = w2.bus) :
    (axi_pwmgen_write_mask B w base offset mask data).2.bus
      = (axi_pwmgen_write_mask B w2 base offset mask data).2.bus := by
  unfold axi_pwmgen_write_mask axi_io_read axi_io_write
  dsimp only
  rw [h]
  split_ifs <;> rfl

/-- C7: for every bus, world and parameter set, if the value `pwm_init` reads
back from the scratchpad register, in its own run from that world (after the
channel-count read and the config-register update, right after it has
written `0x5A0F0081` to the scratchpad), differs from `0x5A0F0081`, then
`pwm_init` returns `FAILURE`, leaves the output parameter as it was, has
issued no write beyond the config-register update and the scratchpad write
(so none to a period, duty or phase register), and has released both
descriptors. -/
theorem self_test_gating {σ : Type} (B : RegisterBus σ) (w : World σ)
    (out : Option pwm_desc) (param : pwm_init_param)
    (hbad :
      (axi_io_read B
        (axi_io_write B
          (axi_pwmgen_write_mask B
            (axi_io_read B w param.extra.base_addr AXI_PWMGEN_REG_NPWM).2.2
            param.extra.base_addr AXI_PWMGEN_REG_CONFIG AXI_PWMGEN_RESET 0).2
          param.extra.base_addr AXI_PWMGEN_REG_SCRATCHPAD AXI_PWMGEN_TEST_DATA).2
        param.extra.base_addr AXI_PWMGEN_REG_SCRATCHPAD).2.1
        ≠ AXI_PWMGEN_TEST_DATA) :
    (pwm_init B w out (some param)).1 = FAILURE
      ∧ (pwm_init B w out (some param)).2.1 = out
      ∧ ((pwm_init B w out (some param)).2.2.writes = w.writes
          ∨ (pwm_init B w out (some param)).2.2.writes
              = w.writes ++ [initConfigWrite B w param]
          ∨ (pwm_init B w out (some param)).2.2.writes
              = w.writes ++ [initConfigWrite B w param,
                  ⟨param.extra.base_addr, AXI_PWMGEN_REG_SCRATCHPAD, AXI_PWMGEN_TEST_DATA⟩])
      ∧ (pwm_init B w out (some param)).2.2.heap_live = w.heap_live := by
  apply pwm_init_elim B w out param
    (fun r => r.1 = FAILURE ∧ r.2.1 = out
      ∧ (r.2.2.writes = w.writes
          ∨ r.2.2.writes = w.writes ++ [initConfigWrite B w param]
          ∨ r.2.2.writes = w.writes ++ [initConfigWrite B w param,
              ⟨param.extra.base_addr, AXI_PWMGEN_REG_SCRATCHPAD, AXI_PWMGEN_TEST_DATA⟩])
      ∧ r.2.2.heap_live = w.heap_live)
  intro a1 a2 r1 r2 r3 r4 r5 r6 r7 r8 ha1 ha2 hr1 hr2 hr3 hr4 _ _ _ _
  by_cases c1 : a1.1 = false
  · rw [if_pos c1]
    have e1 : a1.2 = w := by rw [ha1]; exact calloc_fail w (by rw [← ha1]; exact c1)
    exact ⟨rfl, rfl, Or.inl (by rw [e1]), by rw [e1]⟩
  rw [if_neg c1]
  have l1 : a1.2.heap_live = w.heap_live + 1 := by
    rw [ha1]; exact (calloc_ok w (by rw [← ha1]; exact c1)).1
  have aw1 : a1.2.writes = w.writes := by rw [ha1, calloc_writes]
  by_cases c2 : a2.1 = false
  · rw [if_pos c2]
    have e2 : a2.2 = a1.2 := by rw [ha2]; exact calloc_fail a1.2 (by rw [← ha2]; exact c2)
    refine ⟨rfl, rfl, Or.inl (by rw [free_writes, e2, aw1]), ?_⟩
    show a2.2.heap_live - 1 = w.heap_live
    rw [e2, l1]; rfl
  rw [if_neg c2]
  have l2 : a2.2.heap_live = w.heap_live + 2 := by
    rw [ha2, (calloc_ok a1.2 (by rw [← ha2]; exact c2)).1, l1]
  have aw2 : a2.2.writes = w.writes := by rw [ha2, calloc_writes, aw1]
  have ab2 : a2.2.bus = w.bus := by rw [ha2, calloc_bus, ha1, calloc_bus]
  -- the channel-count read
  have w1 : r1.2.2.writes = w.writes := by rw [hr1, axi_io_read_writes, aw2]
  have p1 : r1.2.2.heap_live = w.heap_live + 2 := by rw [hr1]; exact l2
  have b1 : r1.2.2.bus = (B.read w.bus param.extra.base_addr AXI_PWMGEN_REG_NPWM).2.2 := by
    rw [hr1, ← ab2]; rfl
  have hfree : ∀ v : World σ, v.heap_live = w.heap_live + 2 →
      (free (free v)).heap_live = w.heap_live := by
    intro v hv
    show v.heap_live - 1 - 1 = w.heap_live
    omega
  by_cases c3 : r1.1 ≠ SUCCESS
  · rw [if_pos c3]
    exact ⟨rfl, rfl, Or.inl (by rw [free_writes, free_writes, w1]), hfree _ p1⟩
  rw [if_neg c3]
  by_cases c4 : param.extra.channel > (r1.2.1 + U32 - 1) % U32
  · rw [if_pos c4]
    exact ⟨rfl, rfl, Or.inl (by rw [free_writes, free_writes, w1]), hfree _ p1⟩
  rw [if_neg c4]
  -- the config-register update
  have p2 : r2.2.heap_live = w.heap_live + 2 := by
    rw [hr2, (axi_pwmgen_write_mask_heap B r1.2.2 _ _ _ _).1, p1]
  have hcfg : (⟨param.extra.base_addr, AXI_PWMGEN_REG_CONFIG,
      ((axi_io_read B r1.2.2 param.extra.base_addr AXI_PWMGEN_REG_CONFIG).2.1
        &&& not32 AXI_PWMGEN_RESET) ||| (0 &&& AXI_PWMGEN_RESET)⟩ : IoWrite)
      = initConfigWrite B w param := by
    unfold initConfigWrite initConfigRead axi_io_read
    dsimp only
    rw [b1]
  have w2 : r2.2.writes = w.writes ∨ r2.2.writes = w.writes ++ [initConfigWrite B w param] := by
    rcases axi_pwmgen_write_mask_writes_any B r1.2.2 param.extra.base_addr
      AXI_PWMGEN_REG_CONFIG AXI_PWMGEN_RESET 0 with h | h
    · left; rw [hr2, h, w1]
    · right; rw [hr2, h, w1, hcfg]
  by_cases c5 : r2.1 ≠ SUCCESS
  · rw [if_pos c5]
    refine ⟨rfl, rfl, ?_, hfree _ p2⟩
    rcases w2 with h | h
    · exact Or.inl (by rw [free_writes, free_writes, h])
    · exact Or.inr (Or.inl (by rw [free_writes, free_writes, h]))
  rw [if_neg c5]
  have w2ok : r2.2.writes = w.writes ++ [initConfigWrite B w param] := by
    have h := axi_pwmgen_write_mask_writes B r1.2.2 param.extra.base_addr
      AXI_PWMGEN_REG_CONFIG AXI_PWMGEN_RESET 0
    rw [← hr2] at h
    rw [h (not_not.mp c5), w1, hcfg]
  -- the scratchpad write and read-back
  have w3 : r3.2.writes = w.writes ++ [initConfigWrite B w param,
      ⟨param.extra.base_addr, AXI_PWMGEN_REG_SCRATCHPAD, AXI_PWMGEN_TEST_DATA⟩] := by
    rw [hr3, axi_io_write_writes, w2ok, List.append_assoc]
    rfl
  have p3 : r3.2.heap_live = w.heap_live + 2 := by rw [hr3]; exact p2
  have w4 : r4.2.2.writes = r3.2.writes := by rw [hr4]; rfl
  have p4 : r4.2.2.heap_live = w.heap_live + 2 := by rw [hr4]; exact p3
  by_cases c6 : r3.1 ≠ SUCCESS
  · rw [if_pos c6]
    exact ⟨rfl, rfl, Or.inr (Or.inr (by rw [free_writes, free_writes, w3])), hfree _ p3⟩
  rw [if_neg c6]
  by_cases c7 : r4.1 ≠ SUCCESS
  · rw [if_pos c7]
    exact ⟨rfl, rfl, Or.inr (Or.inr (by rw [free_writes, free_writes, w4, w3])), hfree _ p4⟩
  rw [if_neg c7]
  have hb2 : r2.2.bus
      = (axi_pwmgen_write_mask B
          (axi_io_read B w param.extra.base_addr AXI_PWMGEN_REG_NPWM).2.2
          param.extra.base_addr AXI_PWMGEN_REG_CONFIG AXI_PWMGEN_RESET 0).2.bus := by
    rw [hr2]
    exact axi_pwmgen_write_mask_bus B _ _ _ _ _ _ (by rw [b1]; rfl)
  have c8 : r4.2.1 ≠ AXI_PWMGEN_TEST_DATA := by
    have h4 : r4.2.1
        = (B.read (B.write r2.2.bus param.extra.base_addr AXI_PWMGEN_REG_SCRATCHPAD
            AXI_PWMGEN_TEST_DATA).2 param.extra.base_addr AXI_PWMGEN_REG_SCRATCHPAD).2.1
          % U32 := by
      rw [hr4, hr3]; rfl
    rw [h4, hb2]
    exact hbad
  rw [if_pos c8]
  exact ⟨rfl, rfl, Or.inr (Or.inr (by rw [free_writes, free_writes, w4, w3])), hfree _ p4⟩

/-- C7 witness: an address behind which every read returns 4. -/
theorem self_test_gating_witness :
    (pwm_init (constBus 4) (World.start () 8) none
        (some (sampleParam 100000000 1000 500 0))).1 = FAILURE
      ∧ (pwm_init (constBus 4) (World.start () 8) none
          (some (sampleParam 100000000 1000 500 0))).2.1 = none
      ∧ (pwm_init (constBus 4) (World.start () 8) none
          (some (sampleParam 100000000 1000 500 0))).2.2.heap_live = 0 :=
  ⟨(self_test_gating (constBus 4) (World.start () 8) none
      (sampleParam 100000000 1000 500 0) (by decide)).1,
   (self_test_gating (constBus 4) (World.start () 8) none
      (sampleParam 100000000 1000 500 0) (by decide)).2.1,
   (self_test_gating (constBus 4) (World.start () 8) none
      (sampleParam 100000000 1000 500 0) (by decide)).2.2.2⟩

/-! ## C8: the enabled flag -/

/-- Converting 0 ns gives 0 ticks, whatever the clock. -/
theorem ns_to_cnt_zero (ref_clock_Hz : Nat) : ns_to_cnt ref_clock_Hz 0 = 0 := by
  simp [ns_to_cnt, DIV_ROUND_UP, USEC_PER_SEC, U32]

/-- C8 (the code after a successful open): for every bus and every parameter
set, the handle a successful `pwm_init` returns has `enabled = false`;
`pwm_enable` and `pwm_disable` never assign the flag (they return every handle
with the flag it had); and `pwm_set_period(P)` on the returned handle writes 0,
not the tick count of `P`, to the channel's period register. -/
theorem enabled_flag_never_set {σ : Type} (B : RegisterBus σ) (w : World σ)
    (out : Option pwm_desc) (param : pwm_init_param) (P : Nat)
    (h : (pwm_init B w out (some param)).1 = SUCCESS) :
    (pwm_init B w out (some param)).2.1 = some (initDesc param)
      ∧ (initDesc param).enabled = false
      ∧ (∀ (v : World σ) (desc : pwm_desc),
          (pwm_enable B v desc).2.1.enabled = desc.enabled
          ∧ (pwm_disable B v desc).2.1.enabled = desc.enabled)
      ∧ (∀ v : World σ,
          (pwm_set_period B v (initDesc param) P).2.2.writes
            = v.writes ++ [⟨param.extra.base_addr,
                AXI_PWMGEN_CHX_PERIOD param.extra.channel, 0⟩]) := by
  refine ⟨(pwm_init_success B w out param h).1, rfl, fun v desc => ?_, fun v => ?_⟩
  · rw [pwm_enable_desc, pwm_disable_desc]
    exact ⟨rfl, rfl⟩
  · rw [pwm_set_period_writes]
    rfl

/-- C8 witness: a successful open on a register file followed by
`pwm_set_period(2000)`, whose tick count at 100 MHz is 200. -/
theorem enabled_flag_never_set_witness :
    (pwm_init memBus idleWorld none (some (sampleParam 100000000 1000 500 0))).2.1
        = some (initDesc (sampleParam 100000000 1000 500 0))
      ∧ (initDesc (sampleParam 100000000 1000 500 0)).enabled = false
      ∧ (pwm_set_period memBus
          (pwm_init memBus idleWorld none (some (sampleParam 100000000 1000 500 0))).2.2
          (initDesc (sampleParam 100000000 1000 500 0)) 2000).2.2.writes
          = (pwm_init memBus idleWorld none
              (some (sampleParam 100000000 1000 500 0))).2.2.writes
            ++ [⟨(sampleParam 100000000 1000 500 0).extra.base_addr,
                 AXI_PWMGEN_CHX_PERIOD (sampleParam 100000000 1000 500 0).extra.channel, 0⟩]
      ∧ ns_to_cnt (sampleParam 100000000 1000 500 0).extra.ref_clock_Hz 2000 = 200 :=
  ⟨(enabled_flag_never_set memBus idleWorld none (sampleParam 100000000 1000 500 0) 2000
      (by decide)).1,
   (enabled_flag_never_set memBus idleWorld none (sampleParam 100000000 1000 500 0) 2000
      (by decide)).2.1,
   (enabled_flag_never_set memBus idleWorld none (sampleParam 100000000 1000 500 0) 2000
      (by decide)).2.2.2 _,
   by decide⟩

/-! ## C9: the initial values -/

/-- C9 (the code after a successful open): for every bus and every parameter
set, the handle a successful `pwm_init` returns reports the initial period,
the initial duty cycle clamped to the period, and phase 0 whatever
`param.phase_ns` is; the one write to the phase register carries 0 ticks. -/
theorem initial_phase_ignored {σ : Type} (B : RegisterBus σ) (w : World σ)
    (out : Option pwm_desc) (param : pwm_init_param)
    (h : (pwm_init B w out (some param)).1 = SUCCESS) :
    (pwm_init B w out (some param)).2.1 = some (initDesc param)
      ∧ pwm_get_period (initDesc param) = (SUCCESS, param.period_ns)
      ∧ pwm_get_duty_cycle (initDesc param)
          = (SUCCESS, min param.duty_cycle_ns param.period_ns)
      ∧ pwm_get_phase (initDesc param) = (SUCCESS, 0)
      ∧ (pwm_init B w out (some param)).2.2.writes = w.writes ++ initWrites B w param
      ∧ (initWrites B w param)[4]?
          = some ⟨param.extra.base_addr, AXI_PWMGEN_CHX_PHASE param.extra.channel, 0⟩ := by
  refine ⟨(pwm_init_success B w out param h).1, rfl, rfl, rfl,
    (pwm_init_success B w out param h).2, ?_⟩
  simp [initWrites, ns_to_cnt_zero]

/-- C9 witness: an open on a register file with an initial phase of 250 ns,
whose tick count at 100 MHz is 25; the phase register ends up holding 0. -/
theorem initial_phase_ignored_witness :
    (pwm_init memBus idleWorld none (some (sampleParam 100000000 1000 500 250))).2.1
        = some (initDesc (sampleParam 100000000 1000 500 250))
      ∧ pwm_get_phase (initDesc (sampleParam 100000000 1000 500 250)) = (SUCCESS, 0)
      ∧ (sampleParam 100000000 1000 500 250).phase_ns = 250
      ∧ ns_to_cnt (sampleParam 100000000 1000 500 250).extra.ref_clock_Hz 250 = 25
      ∧ regAt
          (pwm_init memBus idleWorld none
            (some (sampleParam 100000000 1000 500 250))).2.2.bus
          0x44A00000 (AXI_PWMGEN_CHX_PHASE 0) = 0 :=
  ⟨(initial_phase_ignored memBus idleWorld none (sampleParam 100000000 1000 500 250)
      (by decide)).1,
   (initial_phase_ignored memBus idleWorld none (sampleParam 100000000 1000 500 250)
      (by decide)).2.2.2.1,
   rfl, by decide, by decide⟩

/-! ## C10: updates of the config register -/

/-- The value `axi_pwmgen_write_mask` writes keeps every bit of the old value
outside the mask and takes every bit inside the mask from the data. -/
theorem masked_value_bits (old mask data i : Nat) (hi : i < 32) :
    ((old &&& not32 mask) ||| (data &&& mask)).testBit i
      = if mask.testBit i then data.testBit i else old.testBit i := by
  have hx : (not32 mask).testBit i = !(mask.testBit i) := by
    unfold not32 U32
    rw [Nat.testBit_xor, Nat.testBit_two_pow_sub_one, Nat.testBit_mod_two_pow]
    simp [hi]
  rw [Nat.testBit_lor, Nat.testBit_land, Nat.testBit_land, hx]
  cases mask.testBit i <;> simp

/-- `pwm_remove` issues exactly one write: the reset bit, as it is, to the
config register. -/
theorem pwm_remove_writes {σ : Type} (B : RegisterBus σ) (w : World σ) (desc : pwm_desc) :
    (pwm_remove B w desc).2.writes
      = w.writes ++ [⟨desc.extra.base_addr, AXI_PWMGEN_REG_CONFIG, AXI_PWMGEN_RESET⟩] := by
  unfold pwm_remove
  dsimp only
  split_ifs <;> rfl

/-- C10 (amended): the update `pwm_init` makes to the config register is a
mask-preserving read-modify-write: the value written is
`(old & ~RESET) | (0 & RESET)`, bit 0 cleared and every other bit as read.
`pwm_enable` and `pwm_disable` write the constant 2 (load-config) and
`pwm_remove` writes the constant 1 (reset) to the config register, whatever it
held. -/
theorem config_register_updates {σ : Type} (B : RegisterBus σ) (w : World σ)
    (out : Option pwm_desc) (param : pwm_init_param) (desc : pwm_desc)
    (hinit : (pwm_init B w out (some param)).1 = SUCCESS) :
    ((pwm_init B w out (some param)).2.2.writes = w.writes ++ initWrites B w param
        ∧ (initWrites B w param).head? = some (initConfigWrite B w param)
        ∧ (initConfigWrite B w param).offset = AXI_PWMGEN_REG_CONFIG
        ∧ (initConfigWrite B w param).value
            = (initConfigRead B w param &&& not32 AXI_PWMGEN_RESET)
              ||| (0 &&& AXI_PWMGEN_RESET)
        ∧ ∀ i, i < 32 →
            (initConfigWrite B w param).value.testBit i
              = if i = 0 then false else (initConfigRead B w param).testBit i)
      ∧ (∀ base offset mask data : Nat,
          (axi_pwmgen_write_mask B w base offset mask data).1 = 0 →
          (axi_pwmgen_write_mask B w base offset mask data).2.writes
            = w.writes ++ [⟨base, offset,
                ((axi_io_read B w base offset).2.1 &&& not32 mask) ||| (data &&& mask)⟩])
      ∧ ((pwm_enable B w desc).1 = SUCCESS →
          (pwm_enable B w desc).2.2.writes
            = w.writes ++ [⟨desc.extra.base_addr, AXI_PWMGEN_CHX_PERIOD desc.extra.channel,
                            desc.extra.ch_period⟩,
                           ⟨desc.extra.base_addr, AXI_PWMGEN_REG_CONFIG, 2⟩])
      ∧ ((pwm_disable B w desc).1 = SUCCESS →
          (pwm_disable B w desc).2.2.writes
            = w.writes ++ [⟨desc.extra.base_addr, AXI_PWMGEN_CHX_PERIOD desc.extra.channel, 0⟩,
                           ⟨desc.extra.base_addr, AXI_PWMGEN_REG_CONFIG, 2⟩])
      ∧ (pwm_remove B w desc).2.writes
          = w.writes ++ [⟨desc.extra.base_addr, AXI_PWMGEN_REG_CONFIG, 1⟩] := by
  refine ⟨⟨(pwm_init_success B w out param hinit).2, rfl, rfl, rfl, fun i hi => ?_⟩,
    fun base offset mask data h => axi_pwmgen_write_mask_writes B w base offset mask data h,
    fun h => pwm_enable_writes B w desc h, fun h => pwm_disable_writes B w desc h,
    pwm_remove_writes B w desc⟩
  show ((initConfigRead B w param &&& not32 AXI_PWMGEN_RESET)
    ||| (0 &&& AXI_PWMGEN_RESET)).testBit i = _
  rw [masked_value_bits _ _ _ _ hi]
  have hbit : AXI_PWMGEN_RESET.testBit i = decide (i = 0) := by
    show (2 ^ 0).testBit i = _
    rw [Nat.testBit_two_pow]
    simp [eq_comm]
  rw [hbit]
  by_cases h0 : i = 0 <;> simp [h0]

/-- C10 witness: an open on a register file whose config register holds
`0xF0`: the value `pwm_init` writes there first is `0xF0`. -/
theorem config_register_updates_witness :
    (pwm_init memBus (World.start busyRegs 8) none
        (some (sampleParam 100000000 1000 500 0))).2.2.writes
        = (World.start busyRegs 8).writes
          ++ initWrites memBus (World.start busyRegs 8) (sampleParam 100000000 1000 500 0)
      ∧ (initConfigWrite memBus (World.start busyRegs 8)
          (sampleParam 100000000 1000 500 0)).value = 0xF0 :=
  ⟨(config_register_updates memBus (World.start busyRegs 8) none
      (sampleParam 100000000 1000 500 0) scenarioDesc (by decide)).1.1,
   by decide⟩

/-- C10 counterexample: with `0xF0` in the config register of a register
file, `pwm_enable` leaves 2 there where a read-modify-write with mask and data
`2` would leave `0xF2`, `pwm_disable` likewise, and `pwm_remove` leaves 1 there
where a read-modify-write with mask and data `1` would leave `0xF1`. -/
theorem config_raw_overwrite_counterexample :
    regAt (World.start busyRegs 8).bus scenarioDesc.extra.base_addr AXI_PWMGEN_REG_CONFIG
        = 0xF0
      ∧ (pwm_enable memBus (World.start busyRegs 8) scenarioDesc).1 = SUCCESS
      ∧ regAt (pwm_enable memBus (World.start busyRegs 8) scenarioDesc).2.2.bus
          scenarioDesc.extra.base_addr AXI_PWMGEN_REG_CONFIG = 2
      ∧ (0xF0 &&& not32 AXI_PWMGEN_LOAD_CONIG)
          ||| (AXI_PWMGEN_LOAD_CONIG &&& AXI_PWMGEN_LOAD_CONIG) = 0xF2
      ∧ (pwm_disable memBus (World.start busyRegs 8) scenarioDesc).1 = SUCCESS
      ∧ regAt (pwm_disable memBus (World.start busyRegs 8) scenarioDesc).2.2.bus
          scenarioDesc.extra.base_addr AXI_PWMGEN_REG_CONFIG = 2
      ∧ (pwm_remove memBus (World.start busyRegs 8) scenarioDesc).1 = SUCCESS
      ∧ regAt (pwm_remove memBus (World.start busyRegs 8) scenarioDesc).2.bus
          scenarioDesc.extra.base_addr AXI_PWMGEN_REG_CONFIG = 1
      ∧ (0xF0 &&& not32 AXI_PWMGEN_RESET) ||| (AXI_PWMGEN_RESET &&& AXI_PWMGEN_RESET)
          = 0xF1 := by
  refine ⟨by decide, by decide, by decide, by decide, by decide, by decide, by decide,
    by decide, by decide⟩

/-! ## C11: teardown -/

/-- When its write succeeds, `pwm_remove` returns `SUCCESS` and frees both
descriptors. -/
theorem pwm_remove_ok {σ : Type} (B : RegisterBus σ) (w : World σ) (desc : pwm_desc)
    (hok : (B.write w.bus desc.extra.base_addr AXI_PWMGEN_REG_CONFIG AXI_PWMGEN_RESET).1
      = SUCCESS) :
    (pwm_remove B w desc).1 = SUCCESS
      ∧ (pwm_remove B w desc).2.heap_live = w.heap_live - 1 - 1
      ∧ (pwm_remove B w desc).2.heap_avail = w.heap_avail + 1 + 1 := by
  unfold pwm_remove
  dsimp only
  rw [axi_io_write_ret, if_neg (not_not.mpr hok)]
  exact ⟨rfl, rfl, rfl⟩

/-- C11 (the code when the reset write fails): for every bus, world and
handle, when the write of the reset bit to the config register fails,
`pwm_remove` returns `FAILURE` and frees nothing: the number of live blocks
and the number of blocks left on the heap are what they were, so both
descriptors stay allocated. -/
theorem pwm_remove_failure_keeps_handle {σ : Type} (B : RegisterBus σ) (w : World σ)
    (desc : pwm_desc)
    (hfail : (B.write w.bus desc.extra.base_addr AXI_PWMGEN_REG_CONFIG AXI_PWMGEN_RESET).1
      ≠ SUCCESS) :
    (pwm_remove B w desc).1 = FAILURE
      ∧ (pwm_remove B w desc).2.heap_live = w.heap_live
      ∧ (pwm_remove B w desc).2.heap_avail = w.heap_avail := by
  unfold pwm_remove
  dsimp only
  rw [axi_io_write_ret, if_pos hfail]
  exact ⟨rfl, rfl, rfl⟩

/-- C11 witness: an open handle over a register file that refuses writes
with the error -5: the two blocks are still live after `pwm_remove`. -/
theorem pwm_remove_failure_keeps_handle_witness :
    (pwm_remove (failBus (-5)) openWorld scenarioDesc).1 = FAILURE
      ∧ (pwm_remove (failBus (-5)) openWorld scenarioDesc).2.heap_live = 2
      ∧ (pwm_remove (failBus (-5)) openWorld scenarioDesc).2.heap_avail = 6 :=
  pwm_remove_failure_keeps_handle (failBus (-5)) openWorld scenarioDesc (by decide)

/-! ## C12: the period write is gated by the enabled flag -/

/-- `pwm_enable` first writes the cached tick count to the period register;
the load-config write follows when that write succeeded. -/
theorem pwm_enable_writes_any {σ : Type} (B : RegisterBus σ) (w : World σ) (desc : pwm_desc) :
    (pwm_enable B w desc).2.2.writes
        = w.writes ++ [⟨desc.extra.base_addr, AXI_PWMGEN_CHX_PERIOD desc.extra.channel,
                        desc.extra.ch_period⟩]
      ∨ (pwm_enable B w desc).2.2.writes
        = w.writes ++ [⟨desc.extra.base_addr, AXI_PWMGEN_CHX_PERIOD desc.extra.channel,
                        desc.extra.ch_period⟩,
                       ⟨desc.extra.base_addr, AXI_PWMGEN_REG_CONFIG, AXI_PWMGEN_LOAD_CONIG⟩] := by
  unfold pwm_enable
  dsimp only
  split_ifs
  · exact Or.inl rfl
  · exact Or.inr (by simp [axi_io_write_writes])

/-- Where `0x40 + 12 * ch` fits in 32 bits, it is the offset of the period
register of channel `ch`. -/
theorem AXI_PWMGEN_CHX_PERIOD_eq (ch : Nat) (h : 0x40 + 12 * ch < 2 ^ 32) :
    AXI_PWMGEN_CHX_PERIOD ch = 0x40 + 12 * ch := by
  unfold AXI_PWMGEN_CHX_PERIOD AXI_PWMGEN_CH_PERIOD_BASE U32
  omega

/-- The offset of the period register of channel `ch` is `0x40 + 12 * ch`
in 32-bit unsigned arithmetic. -/
theorem AXI_PWMGEN_CHX_PERIOD_mod (ch : Nat) :
    AXI_PWMGEN_CHX_PERIOD ch = (0x40 + 12 * ch) % 2 ^ 32 := by
  unfold AXI_PWMGEN_CHX_PERIOD AXI_PWMGEN_CH_PERIOD_BASE U32
  omega

/-- C12: for every bus, handle and `period_ns`, whether or not the write
succeeds, `pwm_set_period` issues exactly one write, to the channel's period
register (offset `0x40 + 12 * channel` in the driver's 32-bit arithmetic):
the computed tick count when the enabled flag is true and 0 when it is
false; the value written is the tick count exactly when the flag is true or
the tick count is itself 0.  In both cases it caches the computed tick count,
not the 0 forced into the register, as `ch_period`, so the first write of a
later `pwm_enable` carries that tick count to the period register; and when
the write succeeds it records `period_ns` as the period. -/
theorem pwm_set_period_gated_write {σ : Type} (B : RegisterBus σ) (w : World σ)
    (desc : pwm_desc) (period_ns : Nat) :
    (pwm_set_period B w desc period_ns).2.2.writes
        = w.writes ++ [⟨desc.extra.base_addr, AXI_PWMGEN_CHX_PERIOD desc.extra.channel,
                        if desc.enabled then ns_to_cnt desc.extra.ref_clock_Hz period_ns
                        else 0⟩]
      ∧ (desc.enabled = true →
        (pwm_set_period B w desc period_ns).2.2.writes
          = w.writes ++ [⟨desc.extra.base_addr, AXI_PWMGEN_CHX_PERIOD desc.extra.channel,
                          ns_to_cnt desc.extra.ref_clock_Hz period_ns⟩])
      ∧ (desc.enabled = false →
        (pwm_set_period B w desc period_ns).2.2.writes
          = w.writes ++ [⟨desc.extra.base_addr, AXI_PWMGEN_CHX_PERIOD desc.extra.channel, 0⟩])
      ∧ ((if desc.enabled then ns_to_cnt desc.extra.ref_clock_Hz period_ns else 0)
            = ns_to_cnt desc.extra.ref_clock_Hz period_ns
          ↔ (desc.enabled = true ∨ ns_to_cnt desc.extra.ref_clock_Hz period_ns = 0))
      ∧ AXI_PWMGEN_CHX_PERIOD desc.extra.channel = (0x40 + 12 * desc.extra.channel) % 2 ^ 32
      ∧ (0x40 + 12 * desc.extra.channel < 2 ^ 32 →
        AXI_PWMGEN_CHX_PERIOD desc.extra.channel = 0x40 + 12 * desc.extra.channel)
      ∧ (pwm_set_period B w desc period_ns).2.1.extra.ch_period
          = ns_to_cnt desc.extra.ref_clock_Hz period_ns
      ∧ (∀ v : World σ,
          (pwm_enable B v (pwm_set_period B w desc period_ns).2.1).2.2.writes
              = v.writes ++ [⟨desc.extra.base_addr,
                  AXI_PWMGEN_CHX_PERIOD desc.extra.channel,
                  ns_to_cnt desc.extra.ref_clock_Hz period_ns⟩]
            ∨ (pwm_enable B v (pwm_set_period B w desc period_ns).2.1).2.2.writes
              = v.writes ++ [⟨desc.extra.base_addr,
                  AXI_PWMGEN_CHX_PERIOD desc.extra.channel,
                  ns_to_cnt desc.extra.ref_clock_Hz period_ns⟩,
                 ⟨desc.extra.base_addr, AXI_PWMGEN_REG_CONFIG, AXI_PWMGEN_LOAD_CONIG⟩])
      ∧ ((pwm_set_period B w desc period_ns).1 = SUCCESS →
          (pwm_set_period B w desc period_ns).2.1.period_ns = period_ns) := by
  have hw := pwm_set_period_writes B w desc period_ns
  have hp := (pwm_set_period_fields B w desc period_ns).2.2.2.2.1
  have hc := pwm_set_period_ch_period B w desc period_ns
  obtain ⟨hb, hch, _⟩ := pwm_set_period_extra B w desc period_ns
  generalize pwm_set_period B w desc period_ns = x at hw hp hc hb hch ⊢
  refine ⟨hw, fun hen => ?_, fun hen => ?_, ?_, AXI_PWMGEN_CHX_PERIOD_mod _,
    AXI_PWMGEN_CHX_PERIOD_eq _, hc, fun v => ?_, hp⟩
  · rw [hw]; simp only [hen, if_true]
  · rw [hw]; simp [hen]
  · generalize ns_to_cnt desc.extra.ref_clock_Hz period_ns = cnt
    cases hen : desc.enabled
    · simp [eq_comm]
    · simp
  · have hE := pwm_enable_writes_any B v x.2.1
    rw [hb, hch, hc] at hE
    exact hE

/-- C12 witness: `pwm_set_period(2000)` on the enabled 100 MHz handle over a
register file, where the write succeeds. -/
theorem pwm_set_period_gated_write_witness :
    (pwm_set_period memBus idleWorld scenarioDesc 2000).2.2.writes
        = idleWorld.writes
          ++ [⟨scenarioDesc.extra.base_addr, AXI_PWMGEN_CHX_PERIOD scenarioDesc.extra.channel,
               ns_to_cnt scenarioDesc.extra.ref_clock_Hz 2000⟩]
      ∧ (pwm_set_period memBus idleWorld scenarioDesc 2000).2.1.period_ns = 2000
      ∧ (pwm_set_period memBus idleWorld scenarioDesc 2000).2.1.extra.ch_period
          = ns_to_cnt scenarioDesc.extra.ref_clock_Hz 2000 :=
  ⟨(pwm_set_period_gated_write memBus idleWorld scenarioDesc 2000).2.1 rfl,
   (pwm_set_period_gated_write memBus idleWorld scenarioDesc 2000).2.2.2.2.2.2.2.2 rfl,
   (pwm_set_period_gated_write memBus idleWorld scenarioDesc 2000).2.2.2.2.2.2.1⟩

/-! ## C13: the registers of different channels -/

/-- Where `0x48 + 12 * ch` fits in 32 bits, the three channel offsets are the
plain sums. -/
theorem chx_offsets (ch : Nat) (h : 0x48 + 12 * ch < 2 ^ 32) :
    AXI_PWMGEN_CHX_PERIOD ch = 0x40 + 12 * ch
      ∧ AXI_PWMGEN_CHX_DUTY ch = 0x44 + 12 * ch
      ∧ AXI_PWMGEN_CHX_PHASE ch = 0x48 + 12 * ch := by
  unfold AXI_PWMGEN_CHX_PERIOD AXI_PWMGEN_CHX_DUTY AXI_PWMGEN_CHX_PHASE
    AXI_PWMGEN_CH_PERIOD_BASE AXI_PWMGEN_CH_DUTY_BASE AXI_PWMGEN_CH_PHASE_BASE U32
  omega

/-- A write to a register file at an offset that is none of the three
offsets of channel `b` leaves the registers of channel `b` alone. -/
theorem chanRegs_write_other (s : Nat → Nat) (base o v b : Nat) (ho : o < U32)
    (h1 : AXI_PWMGEN_CHX_PERIOD b ≠ o) (h2 : AXI_PWMGEN_CHX_DUTY b ≠ o)
    (h3 : AXI_PWMGEN_CHX_PHASE b ≠ o) :
    chanRegs (memBus.write s base o v).2 base b = chanRegs s base b := by
  have l1 : AXI_PWMGEN_CHX_PERIOD b < U32 := Nat.mod_lt _ (by decide)
  have l2 : AXI_PWMGEN_CHX_DUTY b < U32 := Nat.mod_lt _ (by decide)
  have l3 : AXI_PWMGEN_CHX_PHASE b < U32 := Nat.mod_lt _ (by decide)
  unfold chanRegs
  rw [memBus_write_other s base o _ v ho l1 h1, memBus_write_other s base o _ v ho l2 h2,
    memBus_write_other s base o _ v ho l3 h3]

/-- The bus state `pwm_set_duty_cycle` leaves behind is that of one write to
the duty register. -/
theorem pwm_set_duty_cycle_bus {σ : Type} (B : RegisterBus σ) (w : World σ)
    (desc : pwm_desc) (duty_cycle_ns : Nat) :
    (pwm_set_duty_cycle B w desc duty_cycle_ns).2.2.bus
      = (B.write w.bus desc.extra.base_addr (AXI_PWMGEN_CHX_DUTY desc.extra.channel)
          (ns_to_cnt desc.extra.ref_clock_Hz
            (if duty_cycle_ns > desc.period_ns then desc.period_ns else duty_cycle_ns))).2 := by
  unfold pwm_set_duty_cycle ns_to_cnt
  dsimp only
  generalize DIV_ROUND_UP _ _ = cnt
  split_ifs <;> rfl

/-- The bus state `pwm_set_phase` leaves behind is that of one write to the
phase register. -/
theorem pwm_set_phase_bus {σ : Type} (B : RegisterBus σ) (w : World σ)
    (desc : pwm_desc) (phase_ns : Nat) :
    (pwm_set_phase B w desc phase_ns).2.2.bus
      = (B.write w.bus desc.extra.base_addr (AXI_PWMGEN_CHX_PHASE desc.extra.channel)
          (ns_to_cnt desc.extra.ref_clock_Hz phase_ns)).2 := by
  unfold pwm_set_phase ns_to_cnt
  dsimp only
  generalize DIV_ROUND_UP _ _ = cnt
  split_ifs <;> rfl

/-- C13 (amended): for all channel indices `a ≠ b` for which neither
`0x48 + 12 * a` nor `0x48 + 12 * b` wraps around 32 bits, the three register
offsets of channel `a` are pairwise distinct, distinct from the three offsets
of channel `b` and distinct from the core-wide registers `0x00` to `0x14`;
and on a register file `pwm_set_period`, `pwm_set_duty_cycle`,
`pwm_set_phase`, `pwm_enable` and `pwm_disable` on a handle of channel `a`
leave the period, duty and phase registers of channel `b` as they were. -/
theorem channel_registers_disjoint (a b : Nat) (hab : a ≠ b)
    (ha : 0x48 + 12 * a < 2 ^ 32) (hb : 0x48 + 12 * b < 2 ^ 32) :
    (AXI_PWMGEN_CHX_PERIOD a ≠ AXI_PWMGEN_CHX_DUTY a
        ∧ AXI_PWMGEN_CHX_PERIOD a ≠ AXI_PWMGEN_CHX_PHASE a
        ∧ AXI_PWMGEN_CHX_DUTY a ≠ AXI_PWMGEN_CHX_PHASE a)
      ∧ (∀ x ∈ [AXI_PWMGEN_CHX_PERIOD a, AXI_PWMGEN_CHX_DUTY a, AXI_PWMGEN_CHX_PHASE a],
          ∀ y ∈ [AXI_PWMGEN_CHX_PERIOD b, AXI_PWMGEN_CHX_DUTY b, AXI_PWMGEN_CHX_PHASE b],
            x ≠ y)
      ∧ (∀ x ∈ [AXI_PWMGEN_CHX_PERIOD a, AXI_PWMGEN_CHX_DUTY a, AXI_PWMGEN_CHX_PHASE a],
          ∀ y ∈ [AXI_PWMGEN_REG_CORE_VERSION, AXI_PWMGEN_REG_ID, AXI_PWMGEN_REG_SCRATCHPAD,
                 AXI_PWMGEN_REG_CORE_MAGIC, AXI_PWMGEN_REG_CONFIG, AXI_PWMGEN_REG_NPWM],
            x ≠ y)
      ∧ (∀ (w : World (Nat → Nat)) (desc : pwm_desc) (x : Nat), desc.extra.channel = a →
          chanRegs (pwm_set_period memBus w desc x).2.2.bus desc.extra.base_addr b
              = chanRegs w.bus desc.extra.base_addr b
            ∧ chanRegs (pwm_set_duty_cycle memBus w desc x).2.2.bus desc.extra.base_addr b
              = chanRegs w.bus desc.extra.base_addr b
            ∧ chanRegs (pwm_set_phase memBus w desc x).2.2.bus desc.extra.base_addr b
              = chanRegs w.bus desc.extra.base_addr b
            ∧ chanRegs (pwm_enable memBus w desc).2.2.bus desc.extra.base_addr b
              = chanRegs w.bus desc.extra.base_addr b
            ∧ chanRegs (pwm_disable memBus w desc).2.2.bus desc.extra.base_addr b
              = chanRegs w.bus desc.extra.base_addr b) := by
  obtain ⟨pa, da, fa⟩ := chx_offsets a ha
  obtain ⟨pb, db, fb⟩ := chx_offsets b hb
  have frame : ∀ o : Nat,
      (o = 0x40 + 12 * a ∨ o = 0x44 + 12 * a ∨ o = 0x48 + 12 * a ∨ o = 0x10) →
      ∀ (s : Nat → Nat) (base v : Nat),
        chanRegs (memBus.write s base o v).2 base b = chanRegs s base b := by
    intro o ho s base v
    apply chanRegs_write_other
    · unfold U32; omega
    · rw [pb]; omega
    · rw [db]; omega
    · rw [fb]; omega
  refine ⟨?_, ?_, ?_, ?_⟩
  · rw [pa, da, fa]
    exact ⟨by omega, by omega, by omega⟩
  · rw [pa, da, fa, pb, db, fb]
    intro x hx y hy
    simp only [List.mem_cons, List.mem_singleton, List.not_mem_nil, or_false] at hx hy
    omega
  · rw [pa, da, fa]
    unfold AXI_PWMGEN_REG_CORE_VERSION AXI_PWMGEN_REG_ID AXI_PWMGEN_REG_SCRATCHPAD
      AXI_PWMGEN_REG_CORE_MAGIC AXI_PWMGEN_REG_CONFIG AXI_PWMGEN_REG_NPWM
    intro x hx y hy
    simp only [List.mem_cons, List.mem_singleton, List.not_mem_nil, or_false] at hx hy
    omega
  · intro w desc x hch
    have hcfg : AXI_PWMGEN_REG_CONFIG = 0x10 := rfl
    refine ⟨?_, ?_, ?_, ?_, ?_⟩
    · rw [pwm_set_period_bus, hch, pa]
      exact frame _ (Or.inl rfl) _ _ _
    · rw [pwm_set_duty_cycle_bus, hch, da]
      exact frame _ (Or.inr (Or.inl rfl)) _ _ _
    · rw [pwm_set_phase_bus, hch, fa]
      exact frame _ (Or.inr (Or.inr (Or.inl rfl))) _ _ _
    · rw [(pwm_enable_memBus w desc).2, hch, pa, hcfg,
        frame _ (Or.inr (Or.inr (Or.inr rfl))), frame _ (Or.inl rfl)]
    · rw [(pwm_disable_memBus w desc).2, hch, pa, hcfg,
        frame _ (Or.inr (Or.inr (Or.inr rfl))), frame _ (Or.inl rfl)]

/-- C13 witness: channels 0 and 1, with `pwm_set_period(2000)` on the enabled
handle of channel 0. -/
theorem channel_registers_disjoint_witness :
    (∀ x ∈ [AXI_PWMGEN_CHX_PERIOD 0, AXI_PWMGEN_CHX_DUTY 0, AXI_PWMGEN_CHX_PHASE 0],
        ∀ y ∈ [AXI_PWMGEN_CHX_PERIOD 1, AXI_PWMGEN_CHX_DUTY 1, AXI_PWMGEN_CHX_PHASE 1],
          x ≠ y)
      ∧ chanRegs (pwm_set_period memBus idleWorld scenarioDesc 2000).2.2.bus
          scenarioDesc.extra.base_addr 1
          = chanRegs idleWorld.bus scenarioDesc.extra.base_addr 1 :=
  ⟨(channel_registers_disjoint 0 1 (by decide) (by decide) (by decide)).2.1,
   ((channel_registers_disjoint 0 1 (by decide) (by decide) (by decide)).2.2.2
      idleWorld scenarioDesc 2000 rfl).1⟩

/-- C13 counterexample: channels `a = 2 ^ 30` and `b = 0` differ and
`0x48 + 12 * b` does not wrap, yet the three offsets of channel `a` are those
of channel `b`, and `pwm_set_period(2000)` on a handle of channel `a` changes
the period register of channel `b` from 0 to 200; the period register of
channel `2 ^ 30 - 4` is the config register. -/
theorem channel_alias_counterexample :
    ((1073741824 : Nat) ≠ 0 ∧ 0x48 + 12 * 0 < 2 ^ 32)
      ∧ AXI_PWMGEN_CHX_PERIOD 1073741824 = AXI_PWMGEN_CHX_PERIOD 0
      ∧ AXI_PWMGEN_CHX_DUTY 1073741824 = AXI_PWMGEN_CHX_DUTY 0
      ∧ AXI_PWMGEN_CHX_PHASE 1073741824 = AXI_PWMGEN_CHX_PHASE 0
      ∧ aliasDesc.extra.channel = 1073741824
      ∧ chanRegs idleWorld.bus aliasDesc.extra.base_addr 0 = (0, 0, 0)
      ∧ chanRegs (pwm_set_period memBus idleWorld aliasDesc 2000).2.2.bus
          aliasDesc.extra.base_addr 0 = (200, 0, 0)
      ∧ AXI_PWMGEN_CHX_PERIOD 1073741820 = AXI_PWMGEN_REG_CONFIG := by
  refine ⟨by decide, by decide, by decide, by decide, rfl, by decide, by decide, by decide⟩

/-! ## C14: the domain on which the tick conversion is exact -/

/-- Where the downscaled product plus the round-up term fits in 32 bits, the
conversion is the exact ceiling of the downscaled product over `1000000`. -/
theorem ns_to_cnt_ceil (ref_clock_Hz ns : Nat)
    (hfit : (ref_clock_Hz / 1000) * ns + 999999 < 2 ^ 32) :
    ns_to_cnt ref_clock_Hz ns = ⌈((ref_clock_Hz / 1000 * ns : ℕ) : ℚ) / 1000000⌉₊ := by
  have hc : ((ref_clock_Hz / 1000 * ns : ℕ) : ℚ) / 1000000
      = ((ref_clock_Hz / 1000 * ns : ℕ) : ℚ) / ((1000000 : ℕ) : ℚ) := by
    norm_num
  rw [hc, ceil_div_eq _ _ (by norm_num), ns_to_cnt_of_fit _ _ hfit]
  have h2 : ref_clock_Hz / 1000 * ns + 1000000 - 1 = ref_clock_Hz / 1000 * ns + 999999 := by
    omega
  rw [h2]

/-- For a clock that is a multiple of 1000, the ceiling of the downscaled
product over `1000000` is the ceiling of the full product over
`1000000000`. -/
theorem ceil_downscaled_eq (ref_clock_Hz ns : Nat) (hdvd : 1000 ∣ ref_clock_Hz) :
    ⌈((ref_clock_Hz / 1000 * ns : ℕ) : ℚ) / 1000000⌉₊
      = ⌈((ref_clock_Hz : ℚ) * (ns : ℚ)) / 1000000000⌉₊ := by
  have hc1 : ((ref_clock_Hz / 1000 * ns : ℕ) : ℚ) / 1000000
      = ((ref_clock_Hz / 1000 * ns : ℕ) : ℚ) / ((1000000 : ℕ) : ℚ) := by
    norm_num
  have hc2 : ((ref_clock_Hz : ℚ) * (ns : ℚ)) / 1000000000
      = ((ref_clock_Hz * ns : ℕ) : ℚ) / ((1000000000 : ℕ) : ℚ) := by
    push_cast; ring
  rw [hc1, hc2, ceil_div_eq _ _ (by norm_num), ceil_div_eq _ _ (by norm_num)]
  obtain ⟨k, hk⟩ := hdvd
  rw [hk, Nat.mul_div_cancel_left k (by norm_num), Nat.mul_assoc]
  omega

/-- C14 (amended): for every reference clock and every `ns` with
`(ref_clock_Hz / 1000) * ns + 999999 < 2 ^ 32`, the tick count
`pwm_set_period(ns)` caches and the one `pwm_set_phase(ns)` writes equal
`ceil((ref_clock_Hz / 1000) * ns / 1000000)`, and the one
`pwm_set_duty_cycle(ns)` writes equals
`ceil((ref_clock_Hz / 1000) * min(ns, period_ns) / 1000000)`, the conversion
of the clamped duty cycle, which is the same value when `ns ≤ period_ns`;
none of the products wraps around 32 bits.  If the clock is a multiple of
1000 these are the exact `ceil(ref_clock_Hz * n / 1000000000)` for the value
`n` converted, and `ticks * 1000000000` is at least `ref_clock_Hz * n`. -/
theorem tick_conversion_domain {σ : Type} (B : RegisterBus σ) (w : World σ)
    (desc : pwm_desc) (ns : Nat)
    (hfit : (desc.extra.ref_clock_Hz / 1000) * ns + 999999 < 2 ^ 32) :
    (pwm_set_period B w desc ns).2.1.extra.ch_period
        = ⌈((desc.extra.ref_clock_Hz / 1000 * ns : ℕ) : ℚ) / 1000000⌉₊
      ∧ (pwm_set_phase B w desc ns).2.2.writes
          = w.writes ++ [⟨desc.extra.base_addr, AXI_PWMGEN_CHX_PHASE desc.extra.channel,
              ⌈((desc.extra.ref_clock_Hz / 1000 * ns : ℕ) : ℚ) / 1000000⌉₊⟩]
      ∧ (pwm_set_duty_cycle B w desc ns).2.2.writes
          = w.writes ++ [⟨desc.extra.base_addr, AXI_PWMGEN_CHX_DUTY desc.extra.channel,
              ⌈((desc.extra.ref_clock_Hz / 1000 * min ns desc.period_ns : ℕ) : ℚ)
                / 1000000⌉₊⟩]
      ∧ (ns ≤ desc.period_ns →
          (pwm_set_duty_cycle B w desc ns).2.2.writes
            = w.writes ++ [⟨desc.extra.base_addr, AXI_PWMGEN_CHX_DUTY desc.extra.channel,
                ⌈((desc.extra.ref_clock_Hz / 1000 * ns : ℕ) : ℚ) / 1000000⌉₊⟩])
      ∧ (desc.extra.ref_clock_Hz / 1000) * ns < 2 ^ 32
      ∧ (desc.extra.ref_clock_Hz / 1000) * min ns desc.period_ns < 2 ^ 32
      ∧ (1000 ∣ desc.extra.ref_clock_Hz →
          (pwm_set_period B w desc ns).2.1.extra.ch_period
              = ⌈((desc.extra.ref_clock_Hz : ℚ) * (ns : ℚ)) / 1000000000⌉₊
            ∧ desc.extra.ref_clock_Hz * ns
              ≤ (pwm_set_period B w desc ns).2.1.extra.ch_period * 1000000000
            ∧ (pwm_set_phase B w desc ns).2.2.writes
              = w.writes ++ [⟨desc.extra.base_addr,
                  AXI_PWMGEN_CHX_PHASE desc.extra.channel,
                  ⌈((desc.extra.ref_clock_Hz : ℚ) * (ns : ℚ)) / 1000000000⌉₊⟩]
            ∧ (pwm_set_duty_cycle B w desc ns).2.2.writes
              = w.writes ++ [⟨desc.extra.base_addr,
                  AXI_PWMGEN_CHX_DUTY desc.extra.channel,
                  ⌈((desc.extra.ref_clock_Hz : ℚ) * ((min ns desc.period_ns : ℕ) : ℚ))
                    / 1000000000⌉₊⟩]
            ∧ desc.extra.ref_clock_Hz * min ns desc.period_ns
              ≤ ⌈((desc.extra.ref_clock_Hz : ℚ) * ((min ns desc.period_ns : ℕ) : ℚ))
                    / 1000000000⌉₊ * 1000000000) := by
  have hmle : min ns desc.period_ns ≤ ns := Nat.min_le_left _ _
  have hfitm : (desc.extra.ref_clock_Hz / 1000) * min ns desc.period_ns + 999999 < 2 ^ 32 := by
    have := Nat.mul_le_mul_left (desc.extra.ref_clock_Hz / 1000) hmle
    omega
  have hcnt := ns_to_cnt_ceil desc.extra.ref_clock_Hz ns hfit
  have hcntm := ns_to_cnt_ceil desc.extra.ref_clock_Hz (min ns desc.period_ns) hfitm
  have hc := pwm_set_period_ch_period B w desc ns
  have under : ∀ n : Nat, (desc.extra.ref_clock_Hz / 1000) * n + 999999 < 2 ^ 32 →
      1000 ∣ desc.extra.ref_clock_Hz →
      desc.extra.ref_clock_Hz * n ≤ ns_to_cnt desc.extra.ref_clock_Hz n * 1000000000 := by
    intro n hn hdvd
    rw [ns_to_cnt_of_fit _ _ hn]
    obtain ⟨k, hk⟩ := hdvd
    rw [hk, Nat.mul_div_cancel_left k (by norm_num), Nat.mul_assoc]
    omega
  refine ⟨by rw [hc, hcnt], ?_, ?_, fun hle => ?_, by omega, by omega,
    fun hdvd => ⟨?_, ?_, ?_, ?_, ?_⟩⟩
  · rw [pwm_set_phase_writes, hcnt]
  · rw [pwm_set_duty_cycle_writes, hcntm]
  · rw [pwm_set_duty_cycle_writes, Nat.min_eq_left hle, hcnt]
  · rw [hc, hcnt, ceil_downscaled_eq _ _ hdvd]
  · rw [hc]; exact under ns hfit hdvd
  · rw [pwm_set_phase_writes, hcnt, ceil_downscaled_eq _ _ hdvd]
  · rw [pwm_set_duty_cycle_writes, hcntm, ceil_downscaled_eq _ _ hdvd]
  · rw [← ceil_downscaled_eq _ _ hdvd, ← hcntm]
    exact under _ hfitm hdvd

/-- C14 witness: a 100 MHz clock and 40000 ns, on a handle whose period is
50000 ns. -/
theorem tick_conversion_domain_witness :
    (pwm_set_period memBus idleWorld (sampleDesc 100000000 50000 0 true)
        40000).2.1.extra.ch_period
        = ⌈(((sampleDesc 100000000 50000 0 true).extra.ref_clock_Hz / 1000 * 40000 : ℕ) : ℚ)
            / 1000000⌉₊
      ∧ ((sampleDesc 100000000 50000 0 true).extra.ref_clock_Hz / 1000) * 40000 < 2 ^ 32 :=
  ⟨(tick_conversion_domain memBus idleWorld (sampleDesc 100000000 50000 0 true) 40000
      (by decide)).1,
   (tick_conversion_domain memBus idleWorld (sampleDesc 100000000 50000 0 true) 40000
      (by decide)).2.2.2.2.1⟩

/-- C14 counterexample: with a 100 MHz clock and a period of 1000 ns, the
value 5000 ns satisfies `(ref_clock_Hz / 1000) * ns + 999999 < 2 ^ 32`, yet
`pwm_set_duty_cycle(5000)` writes 100 ticks, the conversion of the clamped
1000 ns, where `ceil((ref_clock_Hz / 1000) * 5000 / 1000000)` is 500. -/
theorem duty_ticks_clamped_counterexample :
    ((sampleDesc 100000000 1000 0 true).extra.ref_clock_Hz / 1000) * 5000 + 999999 < 2 ^ 32
      ∧ (sampleDesc 100000000 1000 0 true).period_ns = 1000
      ∧ (pwm_set_duty_cycle memBus idleWorld (sampleDesc 100000000 1000 0 true) 5000).2.2.writes
          = [⟨0x44A00000, AXI_PWMGEN_CHX_DUTY 0, 100⟩]
      ∧ ⌈(((sampleDesc 100000000 1000 0 true).extra.ref_clock_Hz / 1000 * 5000 : ℕ) : ℚ)
            / 1000000⌉₊ = 500 := by
  refine ⟨by decide, rfl, by decide, ?_⟩
  have h : (((sampleDesc 100000000 1000 0 true).extra.ref_clock_Hz / 1000 * 5000 : ℕ) : ℚ)
      = 500000000 := by
    have h0 : (sampleDesc 100000000 1000 0 true).extra.ref_clock_Hz / 1000 * 5000
        = 500000000 := by decide
    rw [h0]; norm_num
  rw [h, Nat.ceil_eq_iff (by norm_num)]
  norm_num

/-! ## C15: what a failing setter leaves behind -/

/-- The status of `pwm_set_period` is the status of its one bus write. -/
theorem pwm_set_period_ret {σ : Type} (B : RegisterBus σ) (w : World σ)
    (desc : pwm_desc) (period_ns : Nat) :
    (pwm_set_period B w desc period_ns).1
      = (B.write w.bus desc.extra.base_addr (AXI_PWMGEN_CHX_PERIOD desc.extra.channel)
          (if desc.enabled then ns_to_cnt desc.extra.ref_clock_Hz period_ns else 0)).1 := by
  unfold pwm_set_period ns_to_cnt
  dsimp only
  rw [axi_io_write_ret]
  generalize DIV_ROUND_UP _ _ = cnt
  generalize (if desc.enabled = true then cnt else 0) = v
  generalize (B.write w.bus desc.extra.base_addr _ v).1 = ret
  split_ifs with h1
  · rfl
  · exact (not_not.mp h1).symm

/-- The status of `pwm_set_phase` is the status of its one bus write. -/
theorem pwm_set_phase_ret {σ : Type} (B : RegisterBus σ) (w : World σ)
    (desc : pwm_desc) (phase_ns : Nat) :
    (pwm_set_phase B w desc phase_ns).1
      = (B.write w.bus desc.extra.base_addr (AXI_PWMGEN_CHX_PHASE desc.extra.channel)
          (ns_to_cnt desc.extra.ref_clock_Hz phase_ns)).1 := by
  unfold pwm_set_phase ns_to_cnt
  dsimp only
  rw [axi_io_write_ret]
  generalize DIV_ROUND_UP _ _ = cnt
  generalize (B.write w.bus desc.extra.base_addr _ cnt).1 = ret
  split_ifs with h1
  · rfl
  · exact (not_not.mp h1).symm

/-- A failing `pwm_set_phase` leaves the handle as it was. -/
theorem pwm_set_phase_desc_fail {σ : Type} (B : RegisterBus σ) (w : World σ)
    (desc : pwm_desc) (phase_ns : Nat)
    (h : (pwm_set_phase B w desc phase_ns).1 ≠ SUCCESS) :
    (pwm_set_phase B w desc phase_ns).2.1 = desc := by
  unfold pwm_set_phase at h ⊢
  dsimp only at h ⊢
  split_ifs at h ⊢ with h1
  · rfl
  · exact absurd rfl h

/-- C15 (the code when the bus write fails): for every bus, handle and
argument, a `pwm_set_period` whose bus write fails returns the bus's error
code and leaves `period_ns`, `duty_cycle_ns`, `phase_ns`, `enabled` and
`polarity` as they were, but has already overwritten the cached tick count
`ch_period` with the tick count of its argument.  A `pwm_set_duty_cycle` or
`pwm_set_phase` whose bus write fails returns the bus's error code and leaves
the whole handle as it was. -/
theorem pwm_set_period_failure_overwrites_ch_period {σ : Type} (B : RegisterBus σ)
    (w : World σ) (desc : pwm_desc) (x : Nat)
    (hfail : (B.write w.bus desc.extra.base_addr (AXI_PWMGEN_CHX_PERIOD desc.extra.channel)
        (if desc.enabled then ns_to_cnt desc.extra.ref_clock_Hz x else 0)).1 ≠ SUCCESS) :
    (pwm_set_period B w desc x).1
        = (B.write w.bus desc.extra.base_addr (AXI_PWMGEN_CHX_PERIOD desc.extra.channel)
            (if desc.enabled then ns_to_cnt desc.extra.ref_clock_Hz x else 0)).1
      ∧ (pwm_set_period B w desc x).2.1.period_ns = desc.period_ns
      ∧ (pwm_set_period B w desc x).2.1.duty_cycle_ns = desc.duty_cycle_ns
      ∧ (pwm_set_period B w desc x).2.1.phase_ns = desc.phase_ns
      ∧ (pwm_set_period B w desc x).2.1.enabled = desc.enabled
      ∧ (pwm_set_period B w desc x).2.1.polarity = desc.polarity
      ∧ (pwm_set_period B w desc x).2.1.extra.ch_period
          = ns_to_cnt desc.extra.ref_clock_Hz x
      ∧ (∀ d : Nat,
          (B.write w.bus desc.extra.base_addr (AXI_PWMGEN_CHX_DUTY desc.extra.channel)
              (ns_to_cnt desc.extra.ref_clock_Hz (min d desc.period_ns))).1 ≠ SUCCESS →
          (pwm_set_duty_cycle B w desc d).2.1 = desc
            ∧ (pwm_set_duty_cycle B w desc d).1
              = (B.write w.bus desc.extra.base_addr
                  (AXI_PWMGEN_CHX_DUTY desc.extra.channel)
                  (ns_to_cnt desc.extra.ref_clock_Hz (min d desc.period_ns))).1)
      ∧ (∀ p : Nat,
          (B.write w.bus desc.extra.base_addr (AXI_PWMGEN_CHX_PHASE desc.extra.channel)
              (ns_to_cnt desc.extra.ref_clock_Hz p)).1 ≠ SUCCESS →
          (pwm_set_phase B w desc p).2.1 = desc
            ∧ (pwm_set_phase B w desc p).1
              = (B.write w.bus desc.extra.base_addr
                  (AXI_PWMGEN_CHX_PHASE desc.extra.channel)
                  (ns_to_cnt desc.extra.ref_clock_Hz p)).1) := by
  have hret := pwm_set_period_ret B w desc x
  have hs : (pwm_set_period B w desc x).1 ≠ SUCCESS := by rw [hret]; exact hfail
  obtain ⟨hd, hph, hen, hpol, _, hper⟩ := pwm_set_period_fields B w desc x
  refine ⟨hret, hper hs, hd, hph, hen, hpol, pwm_set_period_ch_period B w desc x,
    fun d hf => ?_, fun p hf => ?_⟩
  · have hr := pwm_set_duty_cycle_ret B w desc d
    exact ⟨pwm_set_duty_cycle_desc_fail B w desc d (by rw [hr]; exact hf), hr⟩
  · have hr := pwm_set_phase_ret B w desc p
    exact ⟨pwm_set_phase_desc_fail B w desc p (by rw [hr]; exact hf), hr⟩

/-- C15 witness: `pwm_set_period(2000)` on the enabled 100 MHz handle, whose
cached tick count is 0, over a register file that refuses writes with the
error -5: the call returns -5 and the cached tick count has become that of
2000 ns, which is 200. -/
theorem pwm_set_period_failure_overwrites_ch_period_witness :
    (pwm_set_period (failBus (-5)) openWorld scenarioDesc 2000).1 = -5
      ∧ (pwm_set_period (failBus (-5)) openWorld scenarioDesc 2000).2.1.period_ns
          = scenarioDesc.period_ns
      ∧ scenarioDesc.extra.ch_period = 0
      ∧ (pwm_set_period (failBus (-5)) openWorld scenarioDesc 2000).2.1.extra.ch_period
          = ns_to_cnt scenarioDesc.extra.ref_clock_Hz 2000
      ∧ ns_to_cnt scenarioDesc.extra.ref_clock_Hz 2000 = 200 :=
  ⟨(pwm_set_period_failure_overwrites_ch_period (failBus (-5)) openWorld scenarioDesc 2000
      (by decide)).1,
   (pwm_set_period_failure_overwrites_ch_period (failBus (-5)) openWorld scenarioDesc 2000
      (by decide)).2.1,
   rfl,
   (pwm_set_period_failure_overwrites_ch_period (failBus (-5)) openWorld scenarioDesc 2000
      (by decide)).2.2.2.2.2.2.1,
   by decide⟩

end AxiPwm
